import Mathlib

/-!
# libproj: `libproj_c_configure_default_context`

A shallow embedding of `src/libproj-config.c`.  The C function marshals its R
arguments and drives the context-configuration API of the PROJ library.  The
embedding keeps the control flow of the C function (the three-way branch on the
length of `dbPath`, the two filling loops over stack arrays, the four `Rf_error`
exits) and is parametric in the behaviour of the PROJ library: every PROJ entry
point is a constructor of `Call`, and a value of `Native σ` says what a call does
to a library state `σ` and which `int` it returns.

Each call is also appended, with the value it returned, to a log, so that
statements about *what is passed* to PROJ can be made for every library
behaviour.  Element accesses (`STRING_ELT`, `LOGICAL(..)[0]`, `INTEGER(..)[0]`,
reads and writes of the stack arrays) are bounds-checked in the embedding: an
access outside its vector ends the run with `Stop.outOfBounds`.  The two
variable-length stack arrays are allocated on a `Stack` of limited size: an array
too long for it ends the run with `Stop.stackOverflow`, before the call it was
meant for.
-/

namespace Libproj

/-! ## R values -/

/-- An element of an R character vector (`CHARSXP`); `none` is `NA_STRING`. -/
abbrev CHARSXP := Option String

/-- The missing string `NA_STRING`. -/
def NA_STRING : CHARSXP := none

/-- R API `Rf_translateCharUTF8`: the characters of the element as a C string.
The characters of `NA_STRING` are `"NA"`; re-encoding is not modelled, the text
of an element is a Lean `String`. -/
def Rf_translateCharUTF8 : CHARSXP → String
  | none => "NA"
  | some s => s

/-- R API `Rf_length`. -/
def Rf_length {α : Type} (x : List α) : Nat := x.length

/-- R API `STRING_ELT(x, i)`, bounds-checked: `none` when `i` is not an index of `x`. -/
def STRING_ELT (x : List CHARSXP) (i : Nat) : Option CHARSXP := x[i]?

/-- R API `LOGICAL(x)[i]`, bounds-checked.  `FALSE` is `0`, `TRUE` is `1`,
`NA_LOGICAL` is the smallest `int`. -/
def LOGICAL (x : List Int) (i : Nat) : Option Int := x[i]?

/-- R API `INTEGER(x)[i]`, bounds-checked. -/
def INTEGER (x : List Int) (i : Nat) : Option Int := x[i]?

/-! ## The PROJ context API, as seen from the binding -/

/-- A `PJ_CONTEXT*`, as an address. -/
abbrev PJ_CONTEXT := Nat

/-- Modelled from the spec: the macro `PJ_DEFAULT_CTX` of `proj.h`, which is not
in `src/`; the process-wide default context of §3, taken to be the null context
pointer. -/
def PJ_DEFAULT_CTX : PJ_CONTEXT := 0

/-- A C array of `const char*`; a `NULL` entry is `none`. -/
abbrev CStrArray := List (Option String)

/-- One call into PROJ with its arguments.  An array argument is `none` when the
pointer passed is `NULL`. -/
inductive Call where
  | proj_context_set_search_paths (ctx : PJ_CONTEXT) (count : Nat) (paths : Option CStrArray)
  | proj_context_set_database_path (ctx : PJ_CONTEXT) (dbPath : Option String)
      (auxPaths : Option CStrArray) (options : Option CStrArray)
  | proj_context_set_ca_bundle_path (ctx : PJ_CONTEXT) (path : Option String)
  | proj_context_set_enable_network (ctx : PJ_CONTEXT) (enabled : Int)
  | proj_context_set_url_endpoint (ctx : PJ_CONTEXT) (url : String)
  | proj_log_level (ctx : PJ_CONTEXT) (level : Int)
  | proj_context_get_user_writable_directory (ctx : PJ_CONTEXT) (create : Int)
  deriving DecidableEq, Repr

namespace Call

/-- The context a call is made on (its first argument). -/
def ctx : Call → PJ_CONTEXT
  | proj_context_set_search_paths c _ _ => c
  | proj_context_set_database_path c _ _ _ => c
  | proj_context_set_ca_bundle_path c _ => c
  | proj_context_set_enable_network c _ => c
  | proj_context_set_url_endpoint c _ => c
  | proj_log_level c _ => c
  | proj_context_get_user_writable_directory c _ => c

/-- Is this a call of `proj_context_set_database_path`? -/
def isSetDatabasePath : Call → Bool
  | proj_context_set_database_path _ _ _ _ => true
  | _ => false

/-- Is this a call of `proj_context_set_enable_network`? -/
def isSetEnableNetwork : Call → Bool
  | proj_context_set_enable_network _ _ => true
  | _ => false

end Call

/-- The behaviour of the PROJ library on a library state `σ`: the state after a
call and the `int` the call returns (ignored by the binding for the entry points
that return `void` or a string). -/
abbrev Native (σ : Type) := Call → σ → σ × Int

/-- The library state together with the log of the calls made so far, each with
the value it returned. -/
structure Run (σ : Type) where
  native : σ
  log : List (Call × Int)

/-- Make one call into PROJ: apply it to the library state and log it. -/
def call {σ : Type} (P : Native σ) (c : Call) (r : Run σ) : Run σ × Int :=
  (⟨(P c r.native).1, r.log ++ [(c, (P c r.native).2)]⟩, (P c r.native).2)

/-- The calls made in a run, in order. -/
def Run.calls {σ : Type} (r : Run σ) : List Call := r.log.map Prod.fst

/-- The value returned by the first logged call that satisfies `p`. -/
def retOf (p : Call → Bool) (log : List (Call × Int)) : Option Int :=
  (log.find? fun e => p e.1).map Prod.snd

/-! ## Errors -/

/-- The four `Rf_error` exits of the function. -/
inductive RError where
  | cantSetDatabasePathNull
  | cantSetDatabasePath (dbPath0 : String)
  | cantSetDatabasePathAux (dbPath0 : String)
  | cantEnableNetwork
  deriving DecidableEq, Repr

/-- The message of each `Rf_error` exit. -/
def RError.message : RError → String
  | cantSetDatabasePathNull => "Can't set database path to NULL"
  | cantSetDatabasePath p => "Can't set database path to '" ++ p ++ "'"
  | cantSetDatabasePathAux p =>
      "Can't set database path to '" ++ p ++ "' (or error with one or more aux database paths)"
  | cantEnableNetwork =>
      "Can't enable PROJ network access where network access is not available."

/-- Is this one of the three database-path errors? -/
def RError.isDatabasePath : RError → Bool
  | cantEnableNetwork => false
  | _ => true

/-- Why a run stopped before `return R_NilValue`: an `Rf_error`, an element
access outside its vector or array, or a variable-length array that exhausted
the stack (the process is killed). -/
inductive Stop where
  | error (e : RError)
  | outOfBounds
  | stackOverflow
  deriving DecidableEq, Repr

/-- The result of the function: `none` when it returned `R_NilValue`. -/
abbrev Outcome := Option Stop

/-- Did the run end in one of the database-path errors? -/
def isDbError : Outcome → Bool
  | some (Stop.error e) => e.isDatabasePath
  | _ => false

/-- Did the run end in the network error? -/
def isNetworkError : Outcome → Bool
  | some (Stop.error RError.cantEnableNetwork) => true
  | _ => false

/-! ## Control flow -/

/-- A block of the function: the run after it and, when it did not fall through,
why it stopped. -/
abbrev Step (σ : Type) := Run σ → Run σ × Outcome

/-- Sequencing of two blocks: the second runs only when the first fell through. -/
def Step.andThen {σ : Type} (a b : Step σ) : Step σ := fun r =>
  match a r with
  | (r1, none) => b r1
  | (r1, some e) => (r1, some e)

/-- The loop `for (int i = start; ...; i++) body`, run for `n` iterations; an
iteration that accesses out of bounds (`none`) ends it. -/
def forLoop {α : Type} (body : Nat → α → Option α) : Nat → Nat → α → Option α
  | 0, _, a => some a
  | n + 1, i, a => (body i a).bind (forLoop body n (i + 1))

/-- The assignment `arr[i] = v` on a C array, bounds-checked. -/
def store (arr : CStrArray) (i : Nat) (v : Option String) : Option CStrArray :=
  if i < arr.length then some (arr.set i v) else none

/-- The machine stack when the function runs: `slots` is the number of
`const char*` entries a variable-length array can have before the stack is
exhausted, and `content i` is the indeterminate content that entry `i` of a
fresh array holds before it is written. -/
structure Stack where
  slots : Nat
  content : Nat → Option String

/-- A fresh stack array `const char* arr[n]`.  The C code does not check `n`: an
array of more than `slots` entries exhausts the stack (`none`).  The entries of a
fresh array hold indeterminate content. -/
def stackArray (m : Stack) (n : Nat) : Option CStrArray :=
  if n ≤ m.slots then some ((List.range n).map m.content) else none

/-- Lines 52-57: the context to configure. -/
def selectContext (ctxXptr : Option PJ_CONTEXT) : PJ_CONTEXT :=
  match ctxXptr with
  | none => PJ_DEFAULT_CTX
  | some addr => addr

/-- Lines 61-72: set the search paths. -/
def searchPathsStep {σ : Type} (P : Native σ) (m : Stack) (ctx : PJ_CONTEXT)
    (searchPath : List CHARSXP) : Step σ := fun r =>
  let nSearchPaths := Rf_length searchPath
  if nSearchPaths = 0 then
    ((call P (Call.proj_context_set_search_paths ctx 0 none) r).1, none)
  else
    match stackArray m nSearchPaths with
    | none => (r, some Stop.stackOverflow)
    | some fresh =>
      match forLoop (fun i searchPaths =>
          (STRING_ELT searchPath i).bind fun e =>
            store searchPaths i (some (Rf_translateCharUTF8 e)))
          nSearchPaths 0 fresh with
      | none => (r, some Stop.outOfBounds)
      | some searchPaths =>
        ((call P (Call.proj_context_set_search_paths ctx nSearchPaths (some searchPaths)) r).1,
          none)

/-- Lines 77-106: set the database path and the auxiliary database paths. -/
def databasePathStep {σ : Type} (P : Native σ) (m : Stack) (ctx : PJ_CONTEXT)
    (dbPath : List CHARSXP) : Step σ := fun r =>
  let nDbPaths := Rf_length dbPath
  if nDbPaths = 0 then
    let res := call P (Call.proj_context_set_database_path ctx none none none) r
    if res.2 = 0 then (res.1, some (Stop.error RError.cantSetDatabasePathNull))
    else (res.1, none)
  else if nDbPaths = 1 then
    match STRING_ELT dbPath 0 with
    | none => (r, some Stop.outOfBounds)
    | some e0 =>
      let dbPath0 := Rf_translateCharUTF8 e0
      let res := call P (Call.proj_context_set_database_path ctx (some dbPath0) none none) r
      if res.2 = 0 then (res.1, some (Stop.error (RError.cantSetDatabasePath dbPath0)))
      else (res.1, none)
  else
    match STRING_ELT dbPath 0 with
    | none => (r, some Stop.outOfBounds)
    | some e0 =>
      let dbPath0 := Rf_translateCharUTF8 e0
      match stackArray m nDbPaths with
      | none => (r, some Stop.stackOverflow)
      | some fresh =>
        match (forLoop (fun i auxPaths =>
            (STRING_ELT dbPath (i + 1)).bind fun e =>
              store auxPaths i (some (Rf_translateCharUTF8 e)))
            (nDbPaths - 1) 0 fresh).bind
            (fun auxPaths => store auxPaths (nDbPaths - 1) none) with
        | none => (r, some Stop.outOfBounds)
        | some auxPaths =>
          let res := call P
            (Call.proj_context_set_database_path ctx (some dbPath0) (some auxPaths) none) r
          if res.2 = 0 then (res.1, some (Stop.error (RError.cantSetDatabasePathAux dbPath0)))
          else (res.1, none)

/-- Lines 109-116: set the path of the certificate bundle. -/
def caBundleStep {σ : Type} (P : Native σ) (ctx : PJ_CONTEXT)
    (caPath : List CHARSXP) : Step σ := fun r =>
  match STRING_ELT caPath 0 with
  | none => (r, some Stop.outOfBounds)
  | some e =>
    let caPath0 := if e = NA_STRING then none else some (Rf_translateCharUTF8 e)
    ((call P (Call.proj_context_set_ca_bundle_path ctx caPath0) r).1, none)

/-- Lines 119-123: enable or disable network access. -/
def enableNetworkStep {σ : Type} (P : Native σ) (ctx : PJ_CONTEXT)
    (networkEnabled : List Int) : Step σ := fun r =>
  match LOGICAL networkEnabled 0 with
  | none => (r, some Stop.outOfBounds)
  | some networkEnabled0 =>
    let res := call P (Call.proj_context_set_enable_network ctx networkEnabled0) r
    if res.2 = 0 ∧ networkEnabled0 ≠ 0 then (res.1, some (Stop.error RError.cantEnableNetwork))
    else (res.1, none)

/-- Lines 128-129: set the network endpoint. -/
def urlEndpointStep {σ : Type} (P : Native σ) (ctx : PJ_CONTEXT)
    (networkEndpoint : List CHARSXP) : Step σ := fun r =>
  match STRING_ELT networkEndpoint 0 with
  | none => (r, some Stop.outOfBounds)
  | some e =>
    ((call P (Call.proj_context_set_url_endpoint ctx (Rf_translateCharUTF8 e)) r).1, none)

/-- Lines 138-139: set the log level. -/
def logLevelStep {σ : Type} (P : Native σ) (ctx : PJ_CONTEXT)
    (logLevel : List Int) : Step σ := fun r =>
  match INTEGER logLevel 0 with
  | none => (r, some Stop.outOfBounds)
  | some logLevel0 => ((call P (Call.proj_log_level ctx logLevel0) r).1, none)

/-- Line 144: force the user-writable directory to be resolved. -/
def userWritableDirectoryStep {σ : Type} (P : Native σ) (ctx : PJ_CONTEXT) : Step σ := fun r =>
  ((call P (Call.proj_context_get_user_writable_directory ctx 0) r).1, none)

/-- The function `libproj_c_configure_default_context` (lines 48-147), started
on the library state `s` with an empty log, on the stack `m`. -/
def libproj_c_configure_default_context {σ : Type} (P : Native σ) (m : Stack)
    (ctxXptr : Option PJ_CONTEXT) (searchPath dbPath caPath networkEndpoint : List CHARSXP)
    (networkEnabled logLevel : List Int) (s : σ) : Run σ × Outcome :=
  let ctx := selectContext ctxXptr
  ((searchPathsStep P m ctx searchPath).andThen <|
   (databasePathStep P m ctx dbPath).andThen <|
   (caBundleStep P ctx caPath).andThen <|
   (enableNetworkStep P ctx networkEnabled).andThen <|
   (urlEndpointStep P ctx networkEndpoint).andThen <|
   (logLevelStep P ctx logLevel).andThen <|
   userWritableDirectoryStep P ctx) ⟨s, []⟩

/-- Make the calls `cs` one after the other, whatever they return. -/
def runCalls {σ : Type} (P : Native σ) (cs : List Call) (r : Run σ) : Run σ :=
  cs.foldl (fun acc c => (call P c acc).1) r

/-- A block that does nothing but make calls on the context `ctx`. -/
def Step.OnlyCalls {σ : Type} (P : Native σ) (ctx : PJ_CONTEXT) (a : Step σ) : Prop :=
  ∀ r, ∃ cs, (∀ c ∈ cs, Call.ctx c = ctx) ∧ (a r).1 = runCalls P cs r

/-! ## The arguments the function is expected to pass -/

/-- The search-path call described for a `searchPath` vector: all elements in
order with their count, or count `0` and a `NULL` array for the empty vector. -/
def expectedSearchPathsCall (ctx : PJ_CONTEXT) (searchPath : List CHARSXP) : Call :=
  Call.proj_context_set_search_paths ctx searchPath.length
    (if searchPath = [] then none
     else some (searchPath.map fun e => some (Rf_translateCharUTF8 e)))

/-- The database-path call described for a `dbPath` vector: the first element is
the database path, the remaining ones, followed by a `NULL` entry, are the
auxiliary paths; `NULL` auxiliary paths when there is no remaining element. -/
def expectedDatabasePathCall (ctx : PJ_CONTEXT) : List CHARSXP → Call
  | [] => Call.proj_context_set_database_path ctx none none none
  | e0 :: rest =>
    Call.proj_context_set_database_path ctx (some (Rf_translateCharUTF8 e0))
      (if rest = [] then none
       else some ((rest.map fun e => some (Rf_translateCharUTF8 e)) ++ [none]))
      none

/-- The error raised for a `dbPath` vector when the database path cannot be set. -/
def databasePathError : List CHARSXP → RError
  | [] => RError.cantSetDatabasePathNull
  | [e0] => RError.cantSetDatabasePath (Rf_translateCharUTF8 e0)
  | e0 :: _ :: _ => RError.cantSetDatabasePathAux (Rf_translateCharUTF8 e0)

/-- The array of `searchPath` fits the stack (no array is made for the empty
vector). -/
abbrev searchPathsFit (m : Stack) (searchPath : List CHARSXP) : Prop :=
  searchPath.length ≤ m.slots

/-- The array of `dbPath` fits the stack; no array is made for a `dbPath` of at
most one element. -/
abbrev databasePathsFit (m : Stack) (dbPath : List CHARSXP) : Prop :=
  dbPath.length ≤ 1 ∨ dbPath.length ≤ m.slots

/-- The certificate-bundle argument described for the first element of `caPath`. -/
def expectedCaBundlePath (e : CHARSXP) : Option String :=
  if e = NA_STRING then none else some (Rf_translateCharUTF8 e)

/-! ## The configuration store of a context

The PROJ library is not part of `src/`.  Its effect on a context is modelled from
§3 and §4.1 of the specification (`ConfigStore`). -/

/-- Modelled from the spec: the PROJ library's per-context configuration, absent
from `src/`; the fields of `ConfigStore` in §3. -/
structure ConfigStore where
  searchPaths : List String
  databasePath : Option String
  auxDatabasePaths : List String
  caBundlePath : Option String
  networkEnabled : Bool
  networkEndpoint : String
  logLevel : Int
  userWritableDirectory : Option String
  deriving DecidableEq, Repr

/-- Modelled from the spec: the `ConfigError` taxonomy of §7. -/
inductive ConfigError where
  | DatabaseUnavailable
  | NoDatabase
  | NetworkUnavailable
  deriving DecidableEq, Repr

/-- Modelled from the spec: what the configuration operations of §4.1 consult
outside the store: which database files can be opened, which search paths can
supply a default database, whether network capability was compiled in, the
environment override of the user-writable directory and its platform default. -/
structure Environment where
  canOpenDatabase : String → Bool
  suppliesDefaultDatabase : String → Bool
  networkCapability : Bool
  userWritableOverride : Option String
  platformDefaultDirectory : String

namespace ConfigStore

/-- Modelled from the spec: `setSearchPaths` of §4.1, absent from `src/`;
replaces the current search path list. -/
def setSearchPaths (paths : List String) (c : ConfigStore) : ConfigStore :=
  { c with searchPaths := paths }

/-- Modelled from the spec: `setDatabasePath` of §4.1, absent from `src/`;
validates the primary path by attempting to open it, an omitted primary path is
valid only if a search path can supply a default database; a failure leaves the
store as it was. -/
def setDatabasePath (env : Environment) (primary : Option String) (aux : List String)
    (c : ConfigStore) : Except ConfigError ConfigStore :=
  match primary with
  | some p =>
    if env.canOpenDatabase p then
      Except.ok { c with databasePath := some p, auxDatabasePaths := aux }
    else Except.error ConfigError.DatabaseUnavailable
  | none =>
    if c.searchPaths.any env.suppliesDefaultDatabase then
      Except.ok { c with databasePath := none, auxDatabasePaths := aux }
    else Except.error ConfigError.NoDatabase

/-- Modelled from the spec: `setCABundlePath` of §4.1, absent from `src/`; no
validation. -/
def setCABundlePath (path : Option String) (c : ConfigStore) : ConfigStore :=
  { c with caBundlePath := path }

/-- Modelled from the spec: `setNetworkEnabled` of §4.1, absent from `src/`;
fails when enabling without network capability. -/
def setNetworkEnabled (env : Environment) (enabled : Bool) (c : ConfigStore) :
    Except ConfigError ConfigStore :=
  if enabled && !env.networkCapability then Except.error ConfigError.NetworkUnavailable
  else Except.ok { c with networkEnabled := enabled }

/-- Modelled from the spec: `setNetworkEndpoint` of §4.1, absent from `src/`;
stored verbatim. -/
def setNetworkEndpoint (url : String) (c : ConfigStore) : ConfigStore :=
  { c with networkEndpoint := url }

/-- Modelled from the spec: `setLogLevel` of §4.1, absent from `src/`; stored. -/
def setLogLevel (level : Int) (c : ConfigStore) : ConfigStore :=
  { c with logLevel := level }

/-- Modelled from the spec: `resolveUserWritableDirectory` of §4.1, absent from
`src/`; the first call computes the directory (the environment override before
the platform default) and caches it, later calls return the cached value. -/
def resolveUserWritableDirectory (env : Environment) (c : ConfigStore) :
    ConfigStore × String :=
  match c.userWritableDirectory with
  | some d => (c, d)
  | none =>
    let d := env.userWritableOverride.getD env.platformDefaultDirectory
    ({ c with userWritableDirectory := some d }, d)

end ConfigStore

/-- The library state of the model: the configuration store of every context. -/
abbrev World := PJ_CONTEXT → ConfigStore

/-- The strings of a C array of `count` entries. -/
def cStrings (count : Nat) (arr : Option CStrArray) : List String :=
  ((arr.getD []).take count).reduceOption

/-- The strings of a `NULL`-terminated C array. -/
def nullTerminated (arr : Option CStrArray) : List String :=
  ((arr.getD []).takeWhile Option.isSome).reduceOption

/-- The store of `ctx` after a fallible operation and the `int` reported for it:
`1` with the new store, `0` with the store left as it was. -/
def commit (w : World) (ctx : PJ_CONTEXT) (res : Except ConfigError ConfigStore) :
    World × Int :=
  match res with
  | Except.ok c => (Function.update w ctx c, 1)
  | Except.error _ => (w, 0)

/-- Modelled from the spec: the PROJ context API, absent from `src/`; each entry
point is the operation of §4.1 with the same role, applied to the store of the
context it is called on. -/
def projSpec (env : Environment) : Native World := fun c w =>
  match c with
  | Call.proj_context_set_search_paths ctx count paths =>
    (Function.update w ctx ((w ctx).setSearchPaths (cStrings count paths)), 1)
  | Call.proj_context_set_database_path ctx dbPath auxPaths _ =>
    commit w ctx ((w ctx).setDatabasePath env dbPath (nullTerminated auxPaths))
  | Call.proj_context_set_ca_bundle_path ctx path =>
    (Function.update w ctx ((w ctx).setCABundlePath path), 1)
  | Call.proj_context_set_enable_network ctx enabled =>
    commit w ctx ((w ctx).setNetworkEnabled env (decide (enabled ≠ 0)))
  | Call.proj_context_set_url_endpoint ctx url =>
    (Function.update w ctx ((w ctx).setNetworkEndpoint url), 1)
  | Call.proj_log_level ctx level =>
    (Function.update w ctx ((w ctx).setLogLevel level), 1)
  | Call.proj_context_get_user_writable_directory ctx _ =>
    (Function.update w ctx ((w ctx).resolveUserWritableDirectory env).1, 1)

/-! ## Sample data -/

/-- A stack of 8 MiB, which cannot hold more than 1048576 pointers of 8 bytes;
fresh entries hold a stray string. -/
def sampleStack : Stack :=
  { slots := 1048576, content := fun _ => some "stray" }

/-- A store with one search path, a database and a CA bundle. -/
def sampleStore : ConfigStore :=
  { searchPaths := ["/old/share"], databasePath := some "/old/proj.db",
    auxDatabasePaths := [], caBundlePath := some "/old/ca.pem", networkEnabled := false,
    networkEndpoint := "https://old.example", logLevel := 1,
    userWritableDirectory := none }

/-- Every context starts from `sampleStore`. -/
def sampleWorld : World := fun _ => sampleStore

/-- Only `/new/proj.db` and `/old/proj.db` can be opened; no network capability. -/
def sampleEnv : Environment :=
  { canOpenDatabase := fun p => p == "/new/proj.db" || p == "/old/proj.db",
    suppliesDefaultDatabase := fun _ => false,
    networkCapability := false,
    userWritableOverride := some "/env/one",
    platformDefaultDirectory := "/home/user/.local/share/proj" }

/-- The environment `sampleEnv` after the override of the user-writable directory
has changed. -/
def sampleEnvChanged : Environment :=
  { sampleEnv with userWritableOverride := some "/env/two" }

/-- A library that accepts every call and keeps no state. -/
def acceptAll : Native Unit := fun _ _ => ((), 1)

/-- A library that rejects every call and keeps no state. -/
def rejectAll : Native Unit := fun _ _ => ((), 0)

/-- A library without network access: `proj_context_set_enable_network` returns
`0`, every other call is accepted. -/
def noNetwork : Native Unit := fun c _ => ((), if c.isSetEnableNetwork then 0 else 1)

/-! # Theorems -/

/-! ## The filling loops -/

/-- The loop that copies `n` translated elements of `src`, read from index
`i + off` on, into the entries `i, .., i + n - 1` of an array: it stays in range
and changes exactly those entries. -/
theorem forLoop_fill (src : List CHARSXP) (off : Nat) :
    ∀ (n i : Nat) (arr : CStrArray), i + n + off ≤ src.length → i + n ≤ arr.length →
      ∃ out, forLoop (fun k a => (STRING_ELT src (k + off)).bind fun e =>
                store a k (some (Rf_translateCharUTF8 e))) n i arr = some out ∧
        out.length = arr.length ∧
        ∀ j, out[j]? = if i ≤ j ∧ j < i + n
          then (src[j + off]?).map (fun e => some (Rf_translateCharUTF8 e)) else arr[j]? := by
  intro n
  induction n with
  | zero =>
    intro i arr _ _
    refine ⟨arr, rfl, rfl, fun j => ?_⟩
    have : ¬ (i ≤ j ∧ j < i + 0) := by omega
    rw [if_neg this]
  | succ n ih =>
    intro i arr hs ha
    have hi : i + off < src.length := by omega
    have hia : i < arr.length := by omega
    obtain ⟨out, ho, hl, hj⟩ := ih (i + 1)
      (arr.set i (some (Rf_translateCharUTF8 src[i + off]))) (by omega) (by simp; omega)
    refine ⟨out, ?_, by simpa using hl, fun j => ?_⟩
    · simp only [forLoop, STRING_ELT, store, List.getElem?_eq_getElem hi, Option.some_bind,
        hia, if_true]
      exact ho
    · rw [hj j]
      by_cases h1 : i + 1 ≤ j ∧ j < i + 1 + n
      · have h2 : i ≤ j ∧ j < i + (n + 1) := by omega
        simp [h1, h2]
      · by_cases h3 : i = j
        · subst h3
          have h2 : i ≤ i ∧ i < i + (n + 1) := by omega
          simp [h1, h2, List.getElem?_eq_getElem hi, hia]
        · have h2 : ¬ (i ≤ j ∧ j < i + (n + 1)) := by omega
          simp [h1, h2, List.getElem?_set, h3]

theorem stackArray_length (m : Stack) (n : Nat) (fresh : CStrArray)
    (h : stackArray m n = some fresh) : fresh.length = n := by
  unfold stackArray at h
  split at h
  · injection h with h
    rw [← h]
    simp
  · exact absurd h (by simp)

/-- The search-path block, when its array fits the stack, never stops: it makes
exactly the expected call. -/
theorem searchPathsStep_eq {σ : Type} (P : Native σ) (m : Stack) (ctx : PJ_CONTEXT)
    (searchPath : List CHARSXP) (r : Run σ) (hs : searchPathsFit m searchPath) :
    searchPathsStep P m ctx searchPath r =
      ((call P (expectedSearchPathsCall ctx searchPath) r).1, none) := by
  unfold searchPathsStep expectedSearchPathsCall Rf_length
  by_cases h : searchPath = []
  · subst h; simp
  · have hn : searchPath.length ≠ 0 := by simpa using h
    have hfresh : stackArray m searchPath.length =
        some ((List.range searchPath.length).map m.content) := by
      unfold stackArray
      rw [if_pos hs]
    have hlen : ((List.range searchPath.length).map m.content).length = searchPath.length :=
      stackArray_length m _ _ hfresh
    obtain ⟨out, ho, hl, hj⟩ := forLoop_fill searchPath 0 searchPath.length 0
      ((List.range searchPath.length).map m.content) (by omega) (by omega)
    have hout : out = searchPath.map fun e => some (Rf_translateCharUTF8 e) := by
      apply List.ext_getElem?
      intro j
      rw [hj j]
      by_cases hjl : j < searchPath.length
      · simp [hjl]
      · have h0 : ¬ (0 ≤ j ∧ j < 0 + searchPath.length) := by omega
        rw [if_neg h0, List.getElem?_eq_none (by omega),
          List.getElem?_eq_none (by simp; omega)]
    simp only [Nat.add_zero] at ho
    simp only [hn, h, if_false, hfresh, ho, hout]

/-- The search-path block, when its array does not fit the stack, ends the run
before any call. -/
theorem searchPathsStep_overflow {σ : Type} (P : Native σ) (m : Stack) (ctx : PJ_CONTEXT)
    (searchPath : List CHARSXP) (r : Run σ) (hs : ¬ searchPathsFit m searchPath) :
    searchPathsStep P m ctx searchPath r = (r, some Stop.stackOverflow) := by
  have hs2 : ¬ searchPath.length ≤ m.slots := hs
  have hn : searchPath.length ≠ 0 := by omega
  simp only [searchPathsStep, Rf_length, hn, if_false, stackArray, hs2]

/-- The auxiliary-path array built for a `dbPath` of at least two elements,
whatever the fresh array held. -/
theorem auxPaths_eq (e0 e1 : CHARSXP) (rest : List CHARSXP) (fresh : CStrArray)
    (hfresh : fresh.length = (e0 :: e1 :: rest).length) :
    (forLoop (fun i auxPaths =>
        (STRING_ELT (e0 :: e1 :: rest) (i + 1)).bind fun e =>
          store auxPaths i (some (Rf_translateCharUTF8 e)))
        ((e0 :: e1 :: rest).length - 1) 0 fresh).bind
        (fun auxPaths => store auxPaths ((e0 :: e1 :: rest).length - 1) none) =
      some (((e1 :: rest).map fun e => some (Rf_translateCharUTF8 e)) ++ [none]) := by
  have hfl : fresh.length = rest.length + 2 := by simpa using hfresh
  obtain ⟨out, ho, hl, hj⟩ := forLoop_fill (e0 :: e1 :: rest) 1
    ((e0 :: e1 :: rest).length - 1) 0 fresh
    (by simp) (by simp only [List.length_cons]; omega)
  rw [ho]
  have hlen : out.length = rest.length + 2 := by omega
  simp only [Option.some_bind, store, List.length_cons, hlen]
  rw [if_pos (by omega)]
  congr 1
  apply List.ext_getElem?
  intro j
  rw [List.getElem?_set, hj j]
  by_cases h1 : j < rest.length + 1
  · have h2 : ¬ (rest.length + 1 + 1 - 1 = j) := by omega
    have h3 : 0 ≤ j ∧ j < 0 + ((e0 :: e1 :: rest).length - 1) := by
      simp only [List.length_cons]; omega
    rw [if_neg h2, if_pos h3]
    rw [List.getElem?_append_left (by simpa using h1), List.getElem?_map,
      List.getElem?_cons_succ]
  · by_cases h4 : j = rest.length + 1
    · subst h4
      simp [hlen]
    · have h2 : ¬ (rest.length + 1 + 1 - 1 = j) := by omega
      have h3 : ¬ (0 ≤ j ∧ j < 0 + ((e0 :: e1 :: rest).length - 1)) := by
        simp only [List.length_cons]; omega
      rw [if_neg h2, if_neg h3]
      have h5 : rest.length + 2 ≤ j := by omega
      rw [List.getElem?_eq_none (by omega),
        List.getElem?_eq_none (by simp; omega)]

/-- The database-path block, when its array fits the stack, makes exactly the
expected call and stops with the database-path error exactly when the call
returns `0`. -/
theorem databasePathStep_eq {σ : Type} (P : Native σ) (m : Stack) (ctx : PJ_CONTEXT)
    (dbPath : List CHARSXP) (r : Run σ) (hd : databasePathsFit m dbPath) :
    databasePathStep P m ctx dbPath r =
      ((call P (expectedDatabasePathCall ctx dbPath) r).1,
        if (call P (expectedDatabasePathCall ctx dbPath) r).2 = 0
        then some (Stop.error (databasePathError dbPath)) else none) := by
  match dbPath, hd with
  | [], _ =>
    simp only [databasePathStep, Rf_length, List.length_nil, if_true, expectedDatabasePathCall,
      databasePathError]
    split <;> rfl
  | [e0], _ =>
    simp only [databasePathStep, Rf_length, List.length_singleton, one_ne_zero, if_false,
      if_true, STRING_ELT, List.getElem?_cons_zero, expectedDatabasePathCall, databasePathError]
    split <;> rfl
  | e0 :: e1 :: rest, hd =>
    have h0 : (e0 :: e1 :: rest).length ≠ 0 := by simp
    have h1 : (e0 :: e1 :: rest).length ≠ 1 := by simp
    have hfit : (e0 :: e1 :: rest).length ≤ m.slots := by
      rcases hd with h | h
      · simp at h
      · exact h
    have hfresh : stackArray m (e0 :: e1 :: rest).length =
        some ((List.range (e0 :: e1 :: rest).length).map m.content) := by
      unfold stackArray
      rw [if_pos hfit]
    unfold databasePathStep
    simp only [Rf_length, h0, h1, if_false, hfresh]
    rw [auxPaths_eq e0 e1 rest _ (stackArray_length m _ _ hfresh)]
    simp only [STRING_ELT, List.getElem?_cons_zero, expectedDatabasePathCall, databasePathError]
    have : ¬ (e1 :: rest = []) := by simp
    simp only [this, if_false]
    split <;> rfl

/-- The database-path block, when its array does not fit the stack, ends the run
before the database-path call. -/
theorem databasePathStep_overflow {σ : Type} (P : Native σ) (m : Stack) (ctx : PJ_CONTEXT)
    (dbPath : List CHARSXP) (r : Run σ) (hd : ¬ databasePathsFit m dbPath) :
    databasePathStep P m ctx dbPath r = (r, some Stop.stackOverflow) := by
  have hd2 : ¬ (dbPath.length ≤ 1 ∨ dbPath.length ≤ m.slots) := hd
  match dbPath, hd2 with
  | [], h => exact absurd (Or.inl (by simp)) h
  | [e0], h => exact absurd (Or.inl (by simp)) h
  | e0 :: e1 :: rest, h =>
    have h0 : (e0 :: e1 :: rest).length ≠ 0 := by simp
    have h1 : (e0 :: e1 :: rest).length ≠ 1 := by simp
    have hfit : ¬ (e0 :: e1 :: rest).length ≤ m.slots := fun hf => h (Or.inr hf)
    simp only [databasePathStep, Rf_length, h0, h1, if_false, STRING_ELT,
      List.getElem?_cons_zero, stackArray, hfit]

/-! ## The run of the whole function -/

/-- The run up to the database-path block when both arrays fit the stack: the
search-path call, then the database-path call, whose value decides whether the
run goes on. -/
theorem configure_eq {σ : Type} (P : Native σ) (m : Stack) (ctxXptr : Option PJ_CONTEXT)
    (searchPath dbPath caPath networkEndpoint : List CHARSXP)
    (networkEnabled logLevel : List Int) (s : σ)
    (hs : searchPathsFit m searchPath) (hd : databasePathsFit m dbPath) :
    libproj_c_configure_default_context P m ctxXptr searchPath dbPath caPath networkEndpoint
        networkEnabled logLevel s =
      if (P (expectedDatabasePathCall (selectContext ctxXptr) dbPath)
            (P (expectedSearchPathsCall (selectContext ctxXptr) searchPath) s).1).2 = 0 then
        ((call P (expectedDatabasePathCall (selectContext ctxXptr) dbPath)
            (call P (expectedSearchPathsCall (selectContext ctxXptr) searchPath) ⟨s, []⟩).1).1,
          some (Stop.error (databasePathError dbPath)))
      else
        ((caBundleStep P (selectContext ctxXptr) caPath).andThen <|
         (enableNetworkStep P (selectContext ctxXptr) networkEnabled).andThen <|
         (urlEndpointStep P (selectContext ctxXptr) networkEndpoint).andThen <|
         (logLevelStep P (selectContext ctxXptr) logLevel).andThen <|
         userWritableDirectoryStep P (selectContext ctxXptr))
          (call P (expectedDatabasePathCall (selectContext ctxXptr) dbPath)
            (call P (expectedSearchPathsCall (selectContext ctxXptr) searchPath) ⟨s, []⟩).1).1 := by
  simp only [libproj_c_configure_default_context]
  rw [Step.andThen, searchPathsStep_eq P m _ _ _ hs]
  simp only []
  rw [Step.andThen, databasePathStep_eq P m _ _ _ hd]
  by_cases h : (P (expectedDatabasePathCall (selectContext ctxXptr) dbPath)
      (P (expectedSearchPathsCall (selectContext ctxXptr) searchPath) s).1).2 = 0
  · simp [call, h]
  · simp [call, h]

/-- A `searchPath` too long for the stack ends the run before any call. -/
theorem configure_search_overflow {σ : Type} (P : Native σ) (m : Stack)
    (ctxXptr : Option PJ_CONTEXT) (searchPath dbPath caPath networkEndpoint : List CHARSXP)
    (networkEnabled logLevel : List Int) (s : σ) (hs : ¬ searchPathsFit m searchPath) :
    libproj_c_configure_default_context P m ctxXptr searchPath dbPath caPath networkEndpoint
        networkEnabled logLevel s = (⟨s, []⟩, some Stop.stackOverflow) := by
  simp only [libproj_c_configure_default_context]
  rw [Step.andThen, searchPathsStep_overflow P m _ _ _ hs]

/-- A `dbPath` too long for the stack ends the run after the search-path call,
before the database-path call. -/
theorem configure_database_overflow {σ : Type} (P : Native σ) (m : Stack)
    (ctxXptr : Option PJ_CONTEXT) (searchPath dbPath caPath networkEndpoint : List CHARSXP)
    (networkEnabled logLevel : List Int) (s : σ)
    (hs : searchPathsFit m searchPath) (hd : ¬ databasePathsFit m dbPath) :
    libproj_c_configure_default_context P m ctxXptr searchPath dbPath caPath networkEndpoint
        networkEnabled logLevel s =
      ((call P (expectedSearchPathsCall (selectContext ctxXptr) searchPath) ⟨s, []⟩).1,
        some Stop.stackOverflow) := by
  simp only [libproj_c_configure_default_context]
  rw [Step.andThen, searchPathsStep_eq P m _ _ _ hs]
  simp only []
  rw [Step.andThen, databasePathStep_overflow P m _ _ _ hd]

/-! ## Every block only makes calls on the selected context -/

theorem runCalls_append {σ : Type} (P : Native σ) (a b : List Call) (r : Run σ) :
    runCalls P (a ++ b) r = runCalls P b (runCalls P a r) := by
  simp [runCalls, List.foldl_append]

theorem runCalls_log {σ : Type} (P : Native σ) (cs : List Call) :
    ∀ (r : Run σ) (e : Call × Int), e ∈ (runCalls P cs r).log → e ∈ r.log ∨ e.1 ∈ cs := by
  induction cs with
  | nil => intro r e h; exact Or.inl h
  | cons c cs ih =>
    intro r e h
    have h1 : runCalls P (c :: cs) r = runCalls P cs (call P c r).1 := rfl
    rw [h1] at h
    rcases ih _ e h with h2 | h2
    · simp only [call, List.mem_append, List.mem_singleton] at h2
      rcases h2 with h3 | h3
      · exact Or.inl h3
      · right; simp [h3]
    · right; simp [h2]

theorem OnlyCalls.andThen {σ : Type} {P : Native σ} {ctx : PJ_CONTEXT} {a b : Step σ}
    (ha : Step.OnlyCalls P ctx a) (hb : Step.OnlyCalls P ctx b) :
    Step.OnlyCalls P ctx (a.andThen b) := by
  intro r
  obtain ⟨cs, hcs, hr⟩ := ha r
  unfold Step.andThen
  rcases hx : a r with ⟨r1, _ | e⟩
  · obtain ⟨ds, hds, hd⟩ := hb r1
    refine ⟨cs ++ ds, ?_, ?_⟩
    · intro c hc
      rcases List.mem_append.mp hc with h | h
      · exact hcs c h
      · exact hds c h
    · rw [hx] at hr
      simp only [runCalls_append, ← hr, hd]
  · refine ⟨cs, hcs, ?_⟩
    rw [hx] at hr
    exact hr

theorem OnlyCalls.stay {σ : Type} (P : Native σ) (ctx : PJ_CONTEXT) (r : Run σ) :
    ∃ cs, (∀ c ∈ cs, Call.ctx c = ctx) ∧ r = runCalls P cs r :=
  ⟨[], by simp, rfl⟩

theorem OnlyCalls.one {σ : Type} (P : Native σ) (ctx : PJ_CONTEXT) (c : Call)
    (hc : Call.ctx c = ctx) (r : Run σ) :
    ∃ cs, (∀ d ∈ cs, Call.ctx d = ctx) ∧ (call P c r).1 = runCalls P cs r :=
  ⟨[c], by simpa using hc, rfl⟩

theorem searchPathsStep_onlyCalls {σ : Type} (P : Native σ) (m : Stack) (ctx : PJ_CONTEXT)
    (searchPath : List CHARSXP) :
    Step.OnlyCalls P ctx (searchPathsStep P m ctx searchPath) := by
  intro r
  by_cases hs : searchPathsFit m searchPath
  · rw [searchPathsStep_eq P m _ _ _ hs]
    exact OnlyCalls.one P ctx _ (by rfl) r
  · rw [searchPathsStep_overflow P m _ _ _ hs]
    exact OnlyCalls.stay P ctx r

theorem databasePathStep_onlyCalls {σ : Type} (P : Native σ) (m : Stack) (ctx : PJ_CONTEXT)
    (dbPath : List CHARSXP) :
    Step.OnlyCalls P ctx (databasePathStep P m ctx dbPath) := by
  intro r
  by_cases hd : databasePathsFit m dbPath
  · rw [databasePathStep_eq P m _ _ _ hd]
    refine OnlyCalls.one P ctx _ ?_ r
    cases dbPath <;> rfl
  · rw [databasePathStep_overflow P m _ _ _ hd]
    exact OnlyCalls.stay P ctx r

theorem caBundleStep_onlyCalls {σ : Type} (P : Native σ) (ctx : PJ_CONTEXT)
    (caPath : List CHARSXP) : Step.OnlyCalls P ctx (caBundleStep P ctx caPath) := by
  intro r
  unfold caBundleStep
  cases STRING_ELT caPath 0 with
  | none => exact OnlyCalls.stay P ctx r
  | some e => exact OnlyCalls.one P ctx _ (by rfl) r

theorem enableNetworkStep_onlyCalls {σ : Type} (P : Native σ) (ctx : PJ_CONTEXT)
    (networkEnabled : List Int) :
    Step.OnlyCalls P ctx (enableNetworkStep P ctx networkEnabled) := by
  intro r
  unfold enableNetworkStep
  cases LOGICAL networkEnabled 0 with
  | none => exact OnlyCalls.stay P ctx r
  | some n0 =>
    simp only []
    split <;> exact OnlyCalls.one P ctx _ (by rfl) r

theorem urlEndpointStep_onlyCalls {σ : Type} (P : Native σ) (ctx : PJ_CONTEXT)
    (networkEndpoint : List CHARSXP) :
    Step.OnlyCalls P ctx (urlEndpointStep P ctx networkEndpoint) := by
  intro r
  unfold urlEndpointStep
  cases STRING_ELT networkEndpoint 0 with
  | none => exact OnlyCalls.stay P ctx r
  | some e => exact OnlyCalls.one P ctx _ (by rfl) r

theorem logLevelStep_onlyCalls {σ : Type} (P : Native σ) (ctx : PJ_CONTEXT)
    (logLevel : List Int) : Step.OnlyCalls P ctx (logLevelStep P ctx logLevel) := by
  intro r
  unfold logLevelStep
  cases INTEGER logLevel 0 with
  | none => exact OnlyCalls.stay P ctx r
  | some l0 => exact OnlyCalls.one P ctx _ (by rfl) r

theorem userWritableDirectoryStep_onlyCalls {σ : Type} (P : Native σ) (ctx : PJ_CONTEXT) :
    Step.OnlyCalls P ctx (userWritableDirectoryStep P ctx) :=
  fun r => OnlyCalls.one P ctx _ (by rfl) r

/-- Whatever the arguments, a run is a sequence of calls on the selected context. -/
theorem configure_onlyCalls {σ : Type} (P : Native σ) (m : Stack)
    (ctxXptr : Option PJ_CONTEXT)
    (searchPath dbPath caPath networkEndpoint : List CHARSXP)
    (networkEnabled logLevel : List Int) (s : σ) :
    ∃ cs, (∀ c ∈ cs, Call.ctx c = selectContext ctxXptr) ∧
      (libproj_c_configure_default_context P m ctxXptr searchPath dbPath caPath networkEndpoint
        networkEnabled logLevel s).1 = runCalls P cs ⟨s, []⟩ :=
  (OnlyCalls.andThen (searchPathsStep_onlyCalls P m _ searchPath) <|
    OnlyCalls.andThen (databasePathStep_onlyCalls P m _ dbPath) <|
    OnlyCalls.andThen (caBundleStep_onlyCalls P _ caPath) <|
    OnlyCalls.andThen (enableNetworkStep_onlyCalls P _ networkEnabled) <|
    OnlyCalls.andThen (urlEndpointStep_onlyCalls P _ networkEndpoint) <|
    OnlyCalls.andThen (logLevelStep_onlyCalls P _ logLevel)
      (userWritableDirectoryStep_onlyCalls P _)) ⟨s, []⟩

/-- A configuration that no call on the context `ctx` changes is not changed by a
sequence of such calls. -/
theorem runCalls_frame {σ α : Type} (P : Native σ) (obs : σ → α) (ctx : PJ_CONTEXT)
    (hP : ∀ (c : Call) (s : σ), Call.ctx c = ctx → obs (P c s).1 = obs s) (cs : List Call) :
    ∀ (r : Run σ), (∀ c ∈ cs, Call.ctx c = ctx) →
      obs (runCalls P cs r).native = obs r.native := by
  induction cs with
  | nil => intro r _; rfl
  | cons c cs ih =>
    intro r h
    have h1 : runCalls P (c :: cs) r = runCalls P cs (call P c r).1 := rfl
    rw [h1, ih _ (fun d hd => h d (List.mem_cons_of_mem _ hd))]
    exact hP c r.native (h c (List.mem_cons_self _ _))

/-! ## The modelled library -/

/-- In the modelled library a call changes the store of its own context only. -/
theorem projSpec_frame (env : Environment) (c : Call) (w : World) (x : PJ_CONTEXT)
    (hx : x ≠ Call.ctx c) : (projSpec env c w).1 x = w x := by
  cases c <;> simp only [projSpec, commit, Call.ctx] at hx ⊢
  case proj_context_set_database_path ctx p a o =>
    split <;> simp [Function.update_noteq hx]
  case proj_context_set_enable_network ctx e =>
    split <;> simp [Function.update_noteq hx]
  all_goals exact Function.update_noteq hx _ _


theorem runCalls_log_extends {σ : Type} (P : Native σ) (cs : List Call) :
    ∀ (r : Run σ), ∃ t, (runCalls P cs r).log = r.log ++ t := by
  induction cs with
  | nil => intro r; exact ⟨[], by simp [runCalls]⟩
  | cons c cs ih =>
    intro r
    obtain ⟨t, ht⟩ := ih (call P c r).1
    exact ⟨(c, (P c r.native).2) :: t, by
      have h1 : runCalls P (c :: cs) r = runCalls P cs (call P c r).1 := rfl
      rw [h1, ht]; simp [call]⟩

/-- The blocks after the database-path block never raise a database-path error. -/
theorem tail_not_dbError {σ : Type} (P : Native σ) (ctx : PJ_CONTEXT)
    (caPath networkEndpoint : List CHARSXP) (networkEnabled logLevel : List Int) (r : Run σ) :
    isDbError (((caBundleStep P ctx caPath).andThen <|
         (enableNetworkStep P ctx networkEnabled).andThen <|
         (urlEndpointStep P ctx networkEndpoint).andThen <|
         (logLevelStep P ctx logLevel).andThen <|
         userWritableDirectoryStep P ctx) r).2 = false := by
  rcases caPath with _ | ⟨c0, crest⟩
  · simp [Step.andThen, caBundleStep, STRING_ELT, isDbError]
  rcases networkEnabled with _ | ⟨n0, nrest⟩
  · simp [Step.andThen, caBundleStep, STRING_ELT, enableNetworkStep, LOGICAL, isDbError]
  by_cases hn : (call P (Call.proj_context_set_enable_network ctx n0)
      (call P (Call.proj_context_set_ca_bundle_path ctx
        (if c0 = NA_STRING then none else some (Rf_translateCharUTF8 c0))) r).1).2 = 0
      ∧ n0 ≠ 0
  · simp only [Step.andThen, caBundleStep, STRING_ELT, List.getElem?_cons_zero,
      enableNetworkStep, LOGICAL, if_pos hn]
    rfl
  rcases networkEndpoint with _ | ⟨u0, urest⟩
  · simp only [Step.andThen, caBundleStep, STRING_ELT, List.getElem?_cons_zero,
      enableNetworkStep, LOGICAL, if_neg hn, urlEndpointStep, List.getElem?_nil]
    rfl
  rcases logLevel with _ | ⟨l0, lrest⟩
  · simp only [Step.andThen, caBundleStep, STRING_ELT, List.getElem?_cons_zero,
      enableNetworkStep, LOGICAL, if_neg hn, urlEndpointStep, logLevelStep, INTEGER,
      List.getElem?_nil]
    rfl
  · simp only [Step.andThen, caBundleStep, STRING_ELT, List.getElem?_cons_zero,
      enableNetworkStep, LOGICAL, if_neg hn, urlEndpointStep, logLevelStep, INTEGER,
      userWritableDirectoryStep]
    rfl

/-- The log of a run starts with the search-path call and the database-path
call; nothing follows when the database-path call returns `0`. -/
theorem configure_log {σ : Type} (P : Native σ) (m : Stack) (ctxXptr : Option PJ_CONTEXT)
    (searchPath dbPath caPath networkEndpoint : List CHARSXP)
    (networkEnabled logLevel : List Int) (s : σ)
    (hs : searchPathsFit m searchPath) (hd : databasePathsFit m dbPath) :
    ∃ t, (libproj_c_configure_default_context P m ctxXptr searchPath dbPath caPath
        networkEndpoint networkEnabled logLevel s).1.log =
      (expectedSearchPathsCall (selectContext ctxXptr) searchPath,
        (P (expectedSearchPathsCall (selectContext ctxXptr) searchPath) s).2) ::
      (expectedDatabasePathCall (selectContext ctxXptr) dbPath,
        (P (expectedDatabasePathCall (selectContext ctxXptr) dbPath)
          (P (expectedSearchPathsCall (selectContext ctxXptr) searchPath) s).1).2) :: t ∧
      ((P (expectedDatabasePathCall (selectContext ctxXptr) dbPath)
          (P (expectedSearchPathsCall (selectContext ctxXptr) searchPath) s).1).2 = 0 →
        t = []) := by
  rw [configure_eq P m _ _ _ _ _ _ _ _ hs hd]
  by_cases h : (P (expectedDatabasePathCall (selectContext ctxXptr) dbPath)
      (P (expectedSearchPathsCall (selectContext ctxXptr) searchPath) s).1).2 = 0
  · rw [if_pos h]
    exact ⟨[], by simp [call], fun _ => rfl⟩
  · rw [if_neg h]
    obtain ⟨cs, _, hr⟩ := (OnlyCalls.andThen (caBundleStep_onlyCalls P _ caPath) <|
      OnlyCalls.andThen (enableNetworkStep_onlyCalls P _ networkEnabled) <|
      OnlyCalls.andThen (urlEndpointStep_onlyCalls P _ networkEndpoint) <|
      OnlyCalls.andThen (logLevelStep_onlyCalls P _ logLevel)
        (userWritableDirectoryStep_onlyCalls P (selectContext ctxXptr)))
      (call P (expectedDatabasePathCall (selectContext ctxXptr) dbPath)
        (call P (expectedSearchPathsCall (selectContext ctxXptr) searchPath) ⟨s, []⟩).1).1
    obtain ⟨t, ht⟩ := runCalls_log_extends P cs
      (call P (expectedDatabasePathCall (selectContext ctxXptr) dbPath)
        (call P (expectedSearchPathsCall (selectContext ctxXptr) searchPath) ⟨s, []⟩).1).1
    refine ⟨t, ?_, fun h0 => absurd h0 h⟩
    rw [hr, ht]
    simp [call]

/-- The outcome of a run is a database-path error exactly when the database-path
call returns `0`. -/
theorem configure_isDbError {σ : Type} (P : Native σ) (m : Stack) (ctxXptr : Option PJ_CONTEXT)
    (searchPath dbPath caPath networkEndpoint : List CHARSXP)
    (networkEnabled logLevel : List Int) (s : σ)
    (hs : searchPathsFit m searchPath) (hd : databasePathsFit m dbPath) :
    isDbError (libproj_c_configure_default_context P m ctxXptr searchPath dbPath caPath
        networkEndpoint networkEnabled logLevel s).2 = true ↔
      (P (expectedDatabasePathCall (selectContext ctxXptr) dbPath)
          (P (expectedSearchPathsCall (selectContext ctxXptr) searchPath) s).1).2 = 0 := by
  rw [configure_eq P m _ _ _ _ _ _ _ _ hs hd]
  by_cases h : (P (expectedDatabasePathCall (selectContext ctxXptr) dbPath)
      (P (expectedSearchPathsCall (selectContext ctxXptr) searchPath) s).1).2 = 0
  · rw [if_pos h]
    simp only [h, iff_true]
    rcases dbPath with _ | ⟨e0, _ | ⟨e1, rest⟩⟩ <;> rfl
  · rw [if_neg h, tail_not_dbError]
    simp [h]

/-- The three last blocks either return or stop on an out-of-bounds access. -/
theorem last_outcome {σ : Type} (P : Native σ) (ctx : PJ_CONTEXT)
    (networkEndpoint : List CHARSXP) (logLevel : List Int) (r : Run σ) :
    (((urlEndpointStep P ctx networkEndpoint).andThen <|
      (logLevelStep P ctx logLevel).andThen <|
      userWritableDirectoryStep P ctx) r).2 = none ∨
    (((urlEndpointStep P ctx networkEndpoint).andThen <|
      (logLevelStep P ctx logLevel).andThen <|
      userWritableDirectoryStep P ctx) r).2 = some Stop.outOfBounds := by
  rcases networkEndpoint with _ | ⟨u0, urest⟩
  · right; rfl
  rcases logLevel with _ | ⟨l0, lrest⟩
  · right
    simp [Step.andThen, urlEndpointStep, STRING_ELT, logLevelStep, INTEGER]
  · left
    simp [Step.andThen, urlEndpointStep, STRING_ELT, logLevelStep, INTEGER,
      userWritableDirectoryStep]

/-- A run whose `caPath` and `networkEnabled` have a first element: four calls,
cut short after the second when the database path cannot be set, and followed by
the three last blocks unless network access cannot be enabled. -/
theorem configure_net_eq {σ : Type} (P : Native σ) (m : Stack) (ctxXptr : Option PJ_CONTEXT)
    (searchPath dbPath : List CHARSXP) (c0 : CHARSXP) (crest networkEndpoint : List CHARSXP)
    (n0 : Int) (nrest logLevel : List Int) (s : σ)
    (hs : searchPathsFit m searchPath) (hd : databasePathsFit m dbPath) :
    libproj_c_configure_default_context P m ctxXptr searchPath dbPath (c0 :: crest)
        networkEndpoint (n0 :: nrest) logLevel s =
      if (call P (expectedDatabasePathCall (selectContext ctxXptr) dbPath)
          (runCalls P [expectedSearchPathsCall (selectContext ctxXptr) searchPath] ⟨s, []⟩)).2
          = 0 then
        (runCalls P [expectedSearchPathsCall (selectContext ctxXptr) searchPath,
            expectedDatabasePathCall (selectContext ctxXptr) dbPath] ⟨s, []⟩,
          some (Stop.error (databasePathError dbPath)))
      else if (call P (Call.proj_context_set_enable_network (selectContext ctxXptr) n0)
          (runCalls P [expectedSearchPathsCall (selectContext ctxXptr) searchPath,
            expectedDatabasePathCall (selectContext ctxXptr) dbPath,
            Call.proj_context_set_ca_bundle_path (selectContext ctxXptr)
              (expectedCaBundlePath c0)] ⟨s, []⟩)).2 = 0 ∧ n0 ≠ 0 then
        (runCalls P [expectedSearchPathsCall (selectContext ctxXptr) searchPath,
            expectedDatabasePathCall (selectContext ctxXptr) dbPath,
            Call.proj_context_set_ca_bundle_path (selectContext ctxXptr)
              (expectedCaBundlePath c0),
            Call.proj_context_set_enable_network (selectContext ctxXptr) n0] ⟨s, []⟩,
          some (Stop.error RError.cantEnableNetwork))
      else
        ((urlEndpointStep P (selectContext ctxXptr) networkEndpoint).andThen <|
         (logLevelStep P (selectContext ctxXptr) logLevel).andThen <|
         userWritableDirectoryStep P (selectContext ctxXptr))
          (runCalls P [expectedSearchPathsCall (selectContext ctxXptr) searchPath,
            expectedDatabasePathCall (selectContext ctxXptr) dbPath,
            Call.proj_context_set_ca_bundle_path (selectContext ctxXptr)
              (expectedCaBundlePath c0),
            Call.proj_context_set_enable_network (selectContext ctxXptr) n0] ⟨s, []⟩) := by
  rw [configure_eq P m _ _ _ _ _ _ _ _ hs hd]
  simp only [runCalls, List.foldl_cons, List.foldl_nil]
  by_cases h : (P (expectedDatabasePathCall (selectContext ctxXptr) dbPath)
      (P (expectedSearchPathsCall (selectContext ctxXptr) searchPath) s).1).2 = 0
  · simp [call, h]
  · have h2 : ¬ (call P (expectedDatabasePathCall (selectContext ctxXptr) dbPath)
        (call P (expectedSearchPathsCall (selectContext ctxXptr) searchPath) ⟨s, []⟩).1).2
        = 0 := h
    rw [if_neg h, if_neg h2]
    by_cases h3 : (call P (Call.proj_context_set_enable_network (selectContext ctxXptr) n0)
        (call P (Call.proj_context_set_ca_bundle_path (selectContext ctxXptr)
          (if c0 = NA_STRING then none else some (Rf_translateCharUTF8 c0)))
          (call P (expectedDatabasePathCall (selectContext ctxXptr) dbPath)
            (call P (expectedSearchPathsCall (selectContext ctxXptr) searchPath)
              ⟨s, []⟩).1).1).1).2 = 0 ∧ n0 ≠ 0
    · simp only [Step.andThen, caBundleStep, STRING_ELT, List.getElem?_cons_zero,
        enableNetworkStep, LOGICAL, expectedCaBundlePath, if_pos h3]
    · rw [Step.andThen]
      simp only [caBundleStep, STRING_ELT, List.getElem?_cons_zero]
      rw [Step.andThen]
      simp only [enableNetworkStep, LOGICAL, List.getElem?_cons_zero, expectedCaBundlePath,
        if_neg h3]

/-- A run on well-formed arguments: seven calls, cut short after the second when
the database path cannot be set and after the fourth when network access cannot
be enabled. -/
theorem configure_wf_eq {σ : Type} (P : Native σ) (m : Stack) (ctxXptr : Option PJ_CONTEXT)
    (searchPath dbPath : List CHARSXP) (c0 : CHARSXP) (crest : List CHARSXP)
    (u0 : CHARSXP) (urest : List CHARSXP) (n0 : Int) (nrest : List Int)
    (l0 : Int) (lrest : List Int) (s : σ)
    (hs : searchPathsFit m searchPath) (hd : databasePathsFit m dbPath) :
    libproj_c_configure_default_context P m ctxXptr searchPath dbPath (c0 :: crest)
        (u0 :: urest) (n0 :: nrest) (l0 :: lrest) s =
      if (call P (expectedDatabasePathCall (selectContext ctxXptr) dbPath)
          (runCalls P [expectedSearchPathsCall (selectContext ctxXptr) searchPath] ⟨s, []⟩)).2
          = 0 then
        (runCalls P [expectedSearchPathsCall (selectContext ctxXptr) searchPath,
            expectedDatabasePathCall (selectContext ctxXptr) dbPath] ⟨s, []⟩,
          some (Stop.error (databasePathError dbPath)))
      else if (call P (Call.proj_context_set_enable_network (selectContext ctxXptr) n0)
          (runCalls P [expectedSearchPathsCall (selectContext ctxXptr) searchPath,
            expectedDatabasePathCall (selectContext ctxXptr) dbPath,
            Call.proj_context_set_ca_bundle_path (selectContext ctxXptr)
              (expectedCaBundlePath c0)] ⟨s, []⟩)).2 = 0 ∧ n0 ≠ 0 then
        (runCalls P [expectedSearchPathsCall (selectContext ctxXptr) searchPath,
            expectedDatabasePathCall (selectContext ctxXptr) dbPath,
            Call.proj_context_set_ca_bundle_path (selectContext ctxXptr)
              (expectedCaBundlePath c0),
            Call.proj_context_set_enable_network (selectContext ctxXptr) n0] ⟨s, []⟩,
          some (Stop.error RError.cantEnableNetwork))
      else
        (runCalls P [expectedSearchPathsCall (selectContext ctxXptr) searchPath,
            expectedDatabasePathCall (selectContext ctxXptr) dbPath,
            Call.proj_context_set_ca_bundle_path (selectContext ctxXptr)
              (expectedCaBundlePath c0),
            Call.proj_context_set_enable_network (selectContext ctxXptr) n0,
            Call.proj_context_set_url_endpoint (selectContext ctxXptr)
              (Rf_translateCharUTF8 u0),
            Call.proj_log_level (selectContext ctxXptr) l0,
            Call.proj_context_get_user_writable_directory (selectContext ctxXptr) 0]
            ⟨s, []⟩, none) := by
  rw [configure_net_eq P m _ _ _ _ _ _ _ _ _ _ hs hd]
  simp only [Step.andThen, urlEndpointStep, STRING_ELT, List.getElem?_cons_zero, logLevelStep,
    INTEGER, userWritableDirectoryStep, runCalls, List.foldl_cons, List.foldl_nil]
theorem last_log {σ : Type} (P : Native σ) (ctx : PJ_CONTEXT)
    (networkEndpoint : List CHARSXP) (logLevel : List Int) (r : Run σ) :
    ∃ t, (((urlEndpointStep P ctx networkEndpoint).andThen <|
      (logLevelStep P ctx logLevel).andThen <|
      userWritableDirectoryStep P ctx) r).1.log = r.log ++ t := by
  obtain ⟨cs, _, hr⟩ := (OnlyCalls.andThen (urlEndpointStep_onlyCalls P ctx networkEndpoint) <|
    OnlyCalls.andThen (logLevelStep_onlyCalls P ctx logLevel)
      (userWritableDirectoryStep_onlyCalls P ctx)) r
  obtain ⟨t, ht⟩ := runCalls_log_extends P cs r
  exact ⟨t, by rw [hr, ht]⟩

theorem databasePathError_isDatabasePath (dbPath : List CHARSXP) :
    isDbError (some (Stop.error (databasePathError dbPath))) = true := by
  rcases dbPath with _ | ⟨e0, _ | ⟨e1, rest⟩⟩ <;> rfl

theorem isSetEnableNetwork_search (ctx : PJ_CONTEXT) (searchPath : List CHARSXP) :
    Call.isSetEnableNetwork (expectedSearchPathsCall ctx searchPath) = false := rfl

theorem isSetEnableNetwork_database (ctx : PJ_CONTEXT) (dbPath : List CHARSXP) :
    Call.isSetEnableNetwork (expectedDatabasePathCall ctx dbPath) = false := by
  cases dbPath <;> rfl

theorem isSetEnableNetwork_caBundle (ctx : PJ_CONTEXT) (path : Option String) :
    Call.isSetEnableNetwork (Call.proj_context_set_ca_bundle_path ctx path) = false := rfl

theorem isSetEnableNetwork_enable (ctx : PJ_CONTEXT) (enabled : Int) :
    Call.isSetEnableNetwork (Call.proj_context_set_enable_network ctx enabled) = true := rfl

/-- The log of a run that got past the database-path block, for `caPath` and
`networkEnabled` with a first element: the third and fourth calls, and whether
the run ends in the network error. -/
theorem configure_net_log {σ : Type} (P : Native σ) (m : Stack) (ctxXptr : Option PJ_CONTEXT)
    (searchPath dbPath : List CHARSXP) (c0 : CHARSXP) (crest networkEndpoint : List CHARSXP)
    (n0 : Int) (nrest logLevel : List Int) (s : σ)
    (hs : searchPathsFit m searchPath) (hd : databasePathsFit m dbPath)
    (hdb : isDbError (libproj_c_configure_default_context P m ctxXptr searchPath dbPath
      (c0 :: crest) networkEndpoint (n0 :: nrest) logLevel s).2 = false) :
    (libproj_c_configure_default_context P m ctxXptr searchPath dbPath
        (c0 :: crest) networkEndpoint (n0 :: nrest) logLevel s).1.calls[2]? =
        some (Call.proj_context_set_ca_bundle_path (selectContext ctxXptr)
          (expectedCaBundlePath c0)) ∧
      (libproj_c_configure_default_context P m ctxXptr searchPath dbPath
        (c0 :: crest) networkEndpoint (n0 :: nrest) logLevel s).1.calls[3]? =
        some (Call.proj_context_set_enable_network (selectContext ctxXptr) n0) ∧
      (isNetworkError (libproj_c_configure_default_context P m ctxXptr searchPath dbPath
        (c0 :: crest) networkEndpoint (n0 :: nrest) logLevel s).2 = true ↔
          (n0 ≠ 0 ∧ retOf Call.isSetEnableNetwork
            (libproj_c_configure_default_context P m ctxXptr searchPath dbPath
              (c0 :: crest) networkEndpoint (n0 :: nrest) logLevel s).1.log = some 0)) := by
  rw [configure_net_eq P m _ _ _ _ _ _ _ _ _ _ hs hd] at hdb ⊢
  split at hdb
  · rw [databasePathError_isDatabasePath] at hdb
    exact absurd hdb (by decide)
  · rename_i h1
    rw [if_neg h1]
    by_cases h3 : (call P (Call.proj_context_set_enable_network (selectContext ctxXptr) n0)
          (runCalls P [expectedSearchPathsCall (selectContext ctxXptr) searchPath,
            expectedDatabasePathCall (selectContext ctxXptr) dbPath,
            Call.proj_context_set_ca_bundle_path (selectContext ctxXptr)
              (expectedCaBundlePath c0)] ⟨s, []⟩)).2 = 0 ∧ n0 ≠ 0
    · rw [if_pos h3]
      have h4 := h3.1
      simp only [runCalls, List.foldl_cons, List.foldl_nil, call, List.nil_append,
        List.cons_append] at h4
      refine ⟨?_, ?_, ?_⟩
      · simp only [Run.calls, runCalls, List.foldl_cons, List.foldl_nil, call, List.nil_append,
          List.cons_append, List.map_cons, List.getElem?_cons_succ, List.getElem?_cons_zero]
      · simp only [Run.calls, runCalls, List.foldl_cons, List.foldl_nil, call, List.nil_append,
          List.cons_append, List.map_cons, List.getElem?_cons_succ, List.getElem?_cons_zero]
      · simp only [isNetworkError, true_iff]
        refine ⟨h3.2, ?_⟩
        simp [retOf, runCalls, call, List.find?_cons, isSetEnableNetwork_search,
          isSetEnableNetwork_database, isSetEnableNetwork_caBundle,
          isSetEnableNetwork_enable, h4]
    · rw [if_neg h3]
      obtain ⟨t, ht⟩ := last_log P (selectContext ctxXptr) networkEndpoint logLevel
        (runCalls P [expectedSearchPathsCall (selectContext ctxXptr) searchPath,
            expectedDatabasePathCall (selectContext ctxXptr) dbPath,
            Call.proj_context_set_ca_bundle_path (selectContext ctxXptr)
              (expectedCaBundlePath c0),
            Call.proj_context_set_enable_network (selectContext ctxXptr) n0] ⟨s, []⟩)
      have hne : isNetworkError (((urlEndpointStep P (selectContext ctxXptr)
            networkEndpoint).andThen <|
            (logLevelStep P (selectContext ctxXptr) logLevel).andThen <|
            userWritableDirectoryStep P (selectContext ctxXptr))
            (runCalls P [expectedSearchPathsCall (selectContext ctxXptr) searchPath,
              expectedDatabasePathCall (selectContext ctxXptr) dbPath,
              Call.proj_context_set_ca_bundle_path (selectContext ctxXptr)
                (expectedCaBundlePath c0),
              Call.proj_context_set_enable_network (selectContext ctxXptr) n0]
              ⟨s, []⟩)).2 = false := by
          rcases last_outcome P (selectContext ctxXptr) networkEndpoint logLevel
            (runCalls P [expectedSearchPathsCall (selectContext ctxXptr) searchPath,
              expectedDatabasePathCall (selectContext ctxXptr) dbPath,
              Call.proj_context_set_ca_bundle_path (selectContext ctxXptr)
                (expectedCaBundlePath c0),
              Call.proj_context_set_enable_network (selectContext ctxXptr) n0]
              ⟨s, []⟩) with h | h <;> rw [h] <;> rfl
      simp only [Run.calls, ht, hne]
      simp only [runCalls, List.foldl_cons, List.foldl_nil, call, List.nil_append,
        List.cons_append] at h3 ⊢
      refine ⟨?_, ?_, ?_⟩
      · simp only [List.map_cons, List.getElem?_cons_succ, List.getElem?_cons_zero]
      · simp only [List.map_cons, List.getElem?_cons_succ, List.getElem?_cons_zero]
      · constructor
        · intro hf; exact absurd hf (by decide)
        · intro hc
          refine absurd ⟨?_, hc.1⟩ h3
          have h5 := hc.2
          simpa [retOf, List.find?_cons, isSetEnableNetwork_search,
            isSetEnableNetwork_database, isSetEnableNetwork_caBundle,
            isSetEnableNetwork_enable] using h5
/-! ## The modelled library: what each call does to the store of its context -/

/-- The strings the modelled library reads from the search-path arguments are
the translated elements of `searchPath`. -/
theorem cStrings_expected (searchPath : List CHARSXP) :
    cStrings searchPath.length
      (if searchPath = [] then none
       else some (searchPath.map fun e => some (Rf_translateCharUTF8 e))) =
      searchPath.map Rf_translateCharUTF8 := by
  by_cases h : searchPath = []
  · subst h; rfl
  · simp only [cStrings, if_neg h, Option.getD_some]
    rw [List.take_of_length_le (by simp)]
    induction searchPath with
    | nil => rfl
    | cons e es ih =>
      by_cases hes : es = []
      · subst hes; rfl
      · simp only [List.map_cons, List.reduceOption_cons_of_some]
        rw [ih hes]


theorem nullTerminated_expected (rest : List CHARSXP) :
    nullTerminated (if rest = [] then none
      else some ((rest.map fun e => some (Rf_translateCharUTF8 e)) ++ [none])) =
      rest.map Rf_translateCharUTF8 := by
  by_cases h : rest = []
  · subst h; rfl
  · simp only [nullTerminated, if_neg h, Option.getD_some]
    clear h
    induction rest with
    | nil => rfl
    | cons e es ih =>
      simp only [List.map_cons, List.cons_append, List.takeWhile_cons, Option.isSome_some,
        if_true, List.reduceOption_cons_of_some]
      rw [ih]

/-- A call that the modelled library reports as failed (`0`) changes nothing. -/
theorem projSpec_failed (env : Environment) (c : Call) (w : World)
    (h : (projSpec env c w).2 = 0) : (projSpec env c w).1 = w := by
  cases c with
  | proj_context_set_database_path ctx p a o =>
    simp only [projSpec, commit] at h ⊢
    split at h
    · simp at h
    · rename_i heq; simp only [heq]
  | proj_context_set_enable_network ctx e =>
    simp only [projSpec, commit] at h ⊢
    split at h
    · simp at h
    · rename_i heq; simp only [heq]
  | _ => exact absurd h (by simp [projSpec])

theorem projSpec_search_at (env : Environment) (ctx : PJ_CONTEXT) (searchPath : List CHARSXP)
    (w : World) :
    (projSpec env (expectedSearchPathsCall ctx searchPath) w).1 ctx =
      { w ctx with searchPaths := searchPath.map Rf_translateCharUTF8 } := by
  simp only [expectedSearchPathsCall, projSpec, Function.update_same,
    ConfigStore.setSearchPaths, cStrings_expected]

/-- A database-path call that the modelled library accepts stores the first
element of `dbPath` as the database path and the others as auxiliary paths. -/
theorem projSpec_database_at (env : Environment) (ctx : PJ_CONTEXT) (dbPath : List CHARSXP)
    (w : World) (h : (projSpec env (expectedDatabasePathCall ctx dbPath) w).2 ≠ 0) :
    (projSpec env (expectedDatabasePathCall ctx dbPath) w).1 ctx =
      { w ctx with databasePath := dbPath.head?.map Rf_translateCharUTF8,
                   auxDatabasePaths := dbPath.tail.map Rf_translateCharUTF8 } := by
  cases dbPath with
  | nil =>
    simp only [expectedDatabasePathCall, projSpec, commit, ConfigStore.setDatabasePath] at h ⊢
    split_ifs at h ⊢ with h1
    · simp [Function.update_same, nullTerminated]
    · exact absurd rfl h
  | cons e0 rest =>
    simp only [expectedDatabasePathCall, projSpec, commit, ConfigStore.setDatabasePath,
      nullTerminated_expected] at h ⊢
    split_ifs at h ⊢ with h1
    · simp [Function.update_same]
    · exact absurd rfl h

theorem projSpec_caBundle_at (env : Environment) (ctx : PJ_CONTEXT) (path : Option String)
    (w : World) :
    (projSpec env (Call.proj_context_set_ca_bundle_path ctx path) w).1 ctx =
      { w ctx with caBundlePath := path } := by
  simp only [projSpec, Function.update_same, ConfigStore.setCABundlePath]

/-- The run in the modelled library when the database path cannot be set: the
search paths are the given ones, everything else is as before. -/
theorem spec_database_failure (env : Environment) (m : Stack) (ctxXptr : Option PJ_CONTEXT)
    (searchPath dbPath caPath networkEndpoint : List CHARSXP)
    (networkEnabled logLevel : List Int) (w : World)
    (hs : searchPathsFit m searchPath) (hd : databasePathsFit m dbPath)
    (h : (projSpec env (expectedDatabasePathCall (selectContext ctxXptr) dbPath)
      (projSpec env (expectedSearchPathsCall (selectContext ctxXptr) searchPath) w).1).2 = 0) :
    (libproj_c_configure_default_context (projSpec env) m ctxXptr searchPath dbPath caPath
        networkEndpoint networkEnabled logLevel w).2 =
      some (Stop.error (databasePathError dbPath)) ∧
    (libproj_c_configure_default_context (projSpec env) m ctxXptr searchPath dbPath caPath
        networkEndpoint networkEnabled logLevel w).1.native (selectContext ctxXptr) =
      { w (selectContext ctxXptr) with
          searchPaths := searchPath.map Rf_translateCharUTF8 } := by
  rw [configure_eq (projSpec env) m _ _ _ _ _ _ _ _ hs hd, if_pos h]
  refine ⟨rfl, ?_⟩
  simp only [call]
  rw [projSpec_failed env _ _ h, projSpec_search_at]
/-! ## The claims -/

/-- A run that did not exhaust the stack had arrays that fit it. -/
theorem configure_fits {σ : Type} (P : Native σ) (m : Stack) (ctxXptr : Option PJ_CONTEXT)
    (searchPath dbPath caPath networkEndpoint : List CHARSXP)
    (networkEnabled logLevel : List Int) (s : σ)
    (h : (libproj_c_configure_default_context P m ctxXptr searchPath dbPath caPath
        networkEndpoint networkEnabled logLevel s).2 ≠ some Stop.stackOverflow) :
    searchPathsFit m searchPath ∧ databasePathsFit m dbPath := by
  by_cases hs : searchPathsFit m searchPath
  · by_cases hd : databasePathsFit m dbPath
    · exact ⟨hs, hd⟩
    · rw [configure_database_overflow P m _ _ _ _ _ _ _ _ hs hd] at h
      exact absurd rfl h
  · rw [configure_search_overflow P m _ _ _ _ _ _ _ _ hs] at h
    exact absurd rfl h

/-- Claim C5, as amended.  For every `searchPath` vector whose array fits the
stack (the empty vector always does) the function's first call into PROJ is
`proj_context_set_search_paths` on the selected context with the count and the
elements of `searchPath`, in order (count `0` and a `NULL` array for the empty
vector); the block does not stop the run, which goes on to the database-path
block: either the database-path call is made, or the array of `dbPath` exhausts
the stack. -/
theorem C5_search_paths_replaced {σ : Type} (P : Native σ) (m : Stack)
    (ctxXptr : Option PJ_CONTEXT) (searchPath dbPath caPath networkEndpoint : List CHARSXP)
    (networkEnabled logLevel : List Int) (s : σ)
    (hs : searchPath.length ≤ m.slots) :
    (libproj_c_configure_default_context P m ctxXptr searchPath dbPath caPath
        networkEndpoint networkEnabled logLevel s).1.calls[0]? =
      some (Call.proj_context_set_search_paths (selectContext ctxXptr) searchPath.length
        (if searchPath = [] then none
         else some (searchPath.map fun e => some (Rf_translateCharUTF8 e)))) ∧
    ((∃ d, (libproj_c_configure_default_context P m ctxXptr searchPath dbPath caPath
        networkEndpoint networkEnabled logLevel s).1.calls[1]? = some d ∧
      d.isSetDatabasePath = true) ∨
     (¬ databasePathsFit m dbPath ∧
      (libproj_c_configure_default_context P m ctxXptr searchPath dbPath caPath
        networkEndpoint networkEnabled logLevel s).2 = some Stop.stackOverflow)) := by
  by_cases hd : databasePathsFit m dbPath
  · obtain ⟨t, ht, _⟩ := configure_log P m ctxXptr searchPath dbPath caPath networkEndpoint
      networkEnabled logLevel s hs hd
    refine ⟨?_, Or.inl ⟨expectedDatabasePathCall (selectContext ctxXptr) dbPath, ?_, ?_⟩⟩
    · rw [Run.calls, ht]; rfl
    · rw [Run.calls, ht]
      simp only [List.map_cons, List.getElem?_cons_succ, List.getElem?_cons_zero]
    · cases dbPath <;> rfl
  · rw [configure_database_overflow P m _ _ _ _ _ _ _ _ hs hd]
    refine ⟨?_, Or.inr ⟨hd, rfl⟩⟩
    simp only [Run.calls, call, List.nil_append, List.map_cons, List.map_nil,
      List.getElem?_cons_zero, expectedSearchPathsCall]

/-- A `searchPath` of 1100000 elements on a stack of 8 MiB: the array does not
fit, the run ends before any call into PROJ, so the search paths are not
replaced and the step does fail. -/
theorem C5_search_paths_exhaust_stack :
    (libproj_c_configure_default_context acceptAll sampleStack none
        (List.replicate 1100000 (some "/share")) [some "/proj.db"] [none]
        [some "https://cdn.example"] [0] [2] ()).2 = some Stop.stackOverflow ∧
    (libproj_c_configure_default_context acceptAll sampleStack none
        (List.replicate 1100000 (some "/share")) [some "/proj.db"] [none]
        [some "https://cdn.example"] [0] [2] ()).1.calls[0]? = none := by
  have hs : ¬ searchPathsFit sampleStack (List.replicate 1100000 (some "/share")) := by
    simp only [searchPathsFit, List.length_replicate, sampleStack]
    decide
  rw [configure_search_overflow acceptAll sampleStack _ _ _ _ _ _ _ _ hs]
  exact ⟨rfl, rfl⟩

/-- Claim C5, as amended, at a call with three search paths, one of them `NA`. -/
theorem C5_search_paths_replaced_witness :
    ([some "/a", some "/b", none] : List CHARSXP).length ≤ sampleStack.slots ∧
    (libproj_c_configure_default_context acceptAll sampleStack none
        [some "/a", some "/b", none] [some "/proj.db"] [none]
        [some "https://cdn.example"] [0] [2] ()).1.calls[0]? =
      some (Call.proj_context_set_search_paths PJ_DEFAULT_CTX 3
        (some [some "/a", some "/b", some "NA"])) :=
  ⟨by decide,
    (C5_search_paths_replaced acceptAll sampleStack none [some "/a", some "/b", none]
      [some "/proj.db"] [none] [some "https://cdn.example"] [0] [2] () (by decide)).1⟩

/-- Claim C2, as amended.  For every non-empty `dbPath`, when the arrays of
`searchPath` and of `dbPath` fit the stack (no array is made for a `dbPath` of
one element), the second call of the function is
`proj_context_set_database_path` with `dbPath[0]` as the database path and with
the remaining elements, in order and followed by one `NULL` entry, as the
auxiliary paths; the auxiliary-path argument is `NULL` when `dbPath` has exactly
one element. -/
theorem C2_database_path_arguments {σ : Type} (P : Native σ) (m : Stack)
    (ctxXptr : Option PJ_CONTEXT) (searchPath : List CHARSXP) (e0 : CHARSXP)
    (rest caPath networkEndpoint : List CHARSXP)
    (networkEnabled logLevel : List Int) (s : σ)
    (hs : searchPath.length ≤ m.slots)
    (hd : (e0 :: rest).length ≤ 1 ∨ (e0 :: rest).length ≤ m.slots) :
    (libproj_c_configure_default_context P m ctxXptr searchPath (e0 :: rest) caPath
        networkEndpoint networkEnabled logLevel s).1.calls[1]? =
      some (Call.proj_context_set_database_path (selectContext ctxXptr)
        (some (Rf_translateCharUTF8 e0))
        (if rest = [] then none
         else some ((rest.map fun e => some (Rf_translateCharUTF8 e)) ++ [none]))
        none) := by
  obtain ⟨t, ht, _⟩ := configure_log P m ctxXptr searchPath (e0 :: rest) caPath
    networkEndpoint networkEnabled logLevel s hs hd
  rw [Run.calls, ht]
  simp only [List.map_cons, List.getElem?_cons_succ, List.getElem?_cons_zero,
    expectedDatabasePathCall]

/-- A `dbPath` of 2000000 elements on a stack of 8 MiB: the array of the
auxiliary paths does not fit, the run ends after the search-path call, and no
database path is passed to PROJ. -/
theorem C2_database_paths_exhaust_stack :
    (libproj_c_configure_default_context acceptAll sampleStack none [some "/share"]
        (List.replicate 2000000 (some "/proj.db")) [none]
        [some "https://cdn.example"] [0] [2] ()).2 = some Stop.stackOverflow ∧
    (libproj_c_configure_default_context acceptAll sampleStack none [some "/share"]
        (List.replicate 2000000 (some "/proj.db")) [none]
        [some "https://cdn.example"] [0] [2] ()).1.calls[1]? = none := by
  have hs : searchPathsFit sampleStack [some "/share"] := by decide
  have hd : ¬ databasePathsFit sampleStack
      (List.replicate 2000000 (some "/proj.db")) := by
    simp only [databasePathsFit, List.length_cons, List.length_replicate, sampleStack]
    decide
  rw [configure_database_overflow acceptAll sampleStack _ _ _ _ _ _ _ _ hs hd]
  exact ⟨rfl, rfl⟩

/-- Claim C2, as amended, at a call with a database and two auxiliary paths. -/
theorem C2_database_path_arguments_witness :
    ([some "/share"] : List CHARSXP).length ≤ sampleStack.slots ∧
    (([some "/proj.db", some "/aux1.db", some "/aux2.db"] : List CHARSXP).length ≤ 1 ∨
      ([some "/proj.db", some "/aux1.db", some "/aux2.db"] : List CHARSXP).length ≤
        sampleStack.slots) ∧
    (libproj_c_configure_default_context acceptAll sampleStack none [some "/share"]
        [some "/proj.db", some "/aux1.db", some "/aux2.db"] [none]
        [some "https://cdn.example"] [0] [2] ()).1.calls[1]? =
      some (Call.proj_context_set_database_path PJ_DEFAULT_CTX (some "/proj.db")
        (some [some "/aux1.db", some "/aux2.db", none]) none) :=
  ⟨by decide, by decide,
    C2_database_path_arguments acceptAll sampleStack none [some "/share"] (some "/proj.db")
      [some "/aux1.db", some "/aux2.db"] [none] [some "https://cdn.example"] [0] [2] ()
      (by decide) (by decide)⟩

/-- Claim C3.  For every `dbPath` (empty, one element, or more) the function
ends in a database-path error if and only if its call of
`proj_context_set_database_path` returned `0`; unless the run exhausted the
stack that call is made, and when it returned `0` the run consists of the
search-path call and that call only. -/
theorem C3_database_error_iff_native_failure {σ : Type} (P : Native σ) (m : Stack)
    (ctxXptr : Option PJ_CONTEXT) (searchPath dbPath caPath networkEndpoint : List CHARSXP)
    (networkEnabled logLevel : List Int) (s : σ) :
    (isDbError (libproj_c_configure_default_context P m ctxXptr searchPath dbPath caPath
        networkEndpoint networkEnabled logLevel s).2 = true ↔
      retOf Call.isSetDatabasePath
        (libproj_c_configure_default_context P m ctxXptr searchPath dbPath caPath
          networkEndpoint networkEnabled logLevel s).1.log = some 0) ∧
    ((libproj_c_configure_default_context P m ctxXptr searchPath dbPath caPath
        networkEndpoint networkEnabled logLevel s).2 = some Stop.stackOverflow ∨
      ∃ v, retOf Call.isSetDatabasePath
        (libproj_c_configure_default_context P m ctxXptr searchPath dbPath caPath
          networkEndpoint networkEnabled logLevel s).1.log = some v ∧
        (v ≠ 0 ∨ (libproj_c_configure_default_context P m ctxXptr searchPath dbPath caPath
          networkEndpoint networkEnabled logLevel s).1.calls.length = 2)) := by
  have h1 : Call.isSetDatabasePath
      (expectedSearchPathsCall (selectContext ctxXptr) searchPath) = false := rfl
  by_cases hs : searchPathsFit m searchPath
  · by_cases hd : databasePathsFit m dbPath
    · obtain ⟨t, ht, h0⟩ := configure_log P m ctxXptr searchPath dbPath caPath
        networkEndpoint networkEnabled logLevel s hs hd
      have h2 : Call.isSetDatabasePath
          (expectedDatabasePathCall (selectContext ctxXptr) dbPath) = true := by
        cases dbPath <;> rfl
      have hret : retOf Call.isSetDatabasePath
          (libproj_c_configure_default_context P m ctxXptr searchPath dbPath caPath
            networkEndpoint networkEnabled logLevel s).1.log =
          some (P (expectedDatabasePathCall (selectContext ctxXptr) dbPath)
            (P (expectedSearchPathsCall (selectContext ctxXptr) searchPath) s).1).2 := by
        rw [ht]
        simp [retOf, List.find?, h1, h2]
      refine ⟨?_, Or.inr ⟨_, hret, ?_⟩⟩
      · rw [hret, configure_isDbError P m ctxXptr searchPath dbPath caPath networkEndpoint
          networkEnabled logLevel s hs hd]
        simp
      · by_cases hv : (P (expectedDatabasePathCall (selectContext ctxXptr) dbPath)
            (P (expectedSearchPathsCall (selectContext ctxXptr) searchPath) s).1).2 = 0
        · right
          rw [Run.calls, ht, h0 hv]
          rfl
        · exact Or.inl hv
    · rw [configure_database_overflow P m _ _ _ _ _ _ _ _ hs hd]
      refine ⟨?_, Or.inl rfl⟩
      simp [isDbError, retOf, call, List.find?, h1]
  · rw [configure_search_overflow P m _ _ _ _ _ _ _ _ hs]
    refine ⟨?_, Or.inl rfl⟩
    simp [isDbError, retOf]

/-- Claim C4.  When the database step succeeded (no database-path error, the
stack not exhausted; `caPath` and `networkEnabled` have a first element), the
fourth call is `proj_context_set_enable_network` with `networkEnabled[0]`, and
the function raises the network error if and only if `networkEnabled[0]` is
non-zero and that call returned `0`; with `networkEnabled[0] = FALSE` it never
does. -/
theorem C4_network_error_iff {σ : Type} (P : Native σ) (m : Stack)
    (ctxXptr : Option PJ_CONTEXT)
    (searchPath dbPath : List CHARSXP) (c0 : CHARSXP) (crest networkEndpoint : List CHARSXP)
    (n0 : Int) (nrest logLevel : List Int) (s : σ)
    (hdb : isDbError (libproj_c_configure_default_context P m ctxXptr searchPath dbPath
      (c0 :: crest) networkEndpoint (n0 :: nrest) logLevel s).2 = false)
    (hstack : (libproj_c_configure_default_context P m ctxXptr searchPath dbPath
      (c0 :: crest) networkEndpoint (n0 :: nrest) logLevel s).2 ≠ some Stop.stackOverflow) :
    (libproj_c_configure_default_context P m ctxXptr searchPath dbPath
        (c0 :: crest) networkEndpoint (n0 :: nrest) logLevel s).1.calls[3]? =
        some (Call.proj_context_set_enable_network (selectContext ctxXptr) n0) ∧
      (isNetworkError (libproj_c_configure_default_context P m ctxXptr searchPath dbPath
        (c0 :: crest) networkEndpoint (n0 :: nrest) logLevel s).2 = true ↔
          (n0 ≠ 0 ∧ retOf Call.isSetEnableNetwork
            (libproj_c_configure_default_context P m ctxXptr searchPath dbPath
              (c0 :: crest) networkEndpoint (n0 :: nrest) logLevel s).1.log = some 0)) ∧
      (n0 = 0 → isNetworkError (libproj_c_configure_default_context P m ctxXptr searchPath
        dbPath (c0 :: crest) networkEndpoint (n0 :: nrest) logLevel s).2 = false) := by
  obtain ⟨hs, hd⟩ := configure_fits P m ctxXptr searchPath dbPath (c0 :: crest)
    networkEndpoint (n0 :: nrest) logLevel s hstack
  obtain ⟨_, h4, hiff⟩ := configure_net_log P m ctxXptr searchPath dbPath c0 crest
    networkEndpoint n0 nrest logLevel s hs hd hdb
  refine ⟨h4, hiff, fun hn => ?_⟩
  cases hne : isNetworkError (libproj_c_configure_default_context P m ctxXptr searchPath
        dbPath (c0 :: crest) networkEndpoint (n0 :: nrest) logLevel s).2 with
  | false => rfl
  | true => exact absurd hn (hiff.mp hne).1

/-- Claim C6, as amended.  When the run reaches the CA block (no database-path
error, the stack not exhausted), the third call is
`proj_context_set_ca_bundle_path` with `NULL` when `caPath[0]` is `NA` and with
the string of `caPath[0]` otherwise; whatever that value is, the block does not
stop the run, which goes on to the network block: the fourth call is
`proj_context_set_enable_network` with `networkEnabled[0]` (there is no fourth
call only when `networkEnabled` is empty). -/
theorem C6_ca_bundle_path {σ : Type} (P : Native σ) (m : Stack)
    (ctxXptr : Option PJ_CONTEXT)
    (searchPath dbPath : List CHARSXP) (c0 : CHARSXP) (crest networkEndpoint : List CHARSXP)
    (networkEnabled logLevel : List Int) (s : σ)
    (hdb : isDbError (libproj_c_configure_default_context P m ctxXptr searchPath dbPath
      (c0 :: crest) networkEndpoint networkEnabled logLevel s).2 = false)
    (hstack : (libproj_c_configure_default_context P m ctxXptr searchPath dbPath
      (c0 :: crest) networkEndpoint networkEnabled logLevel s).2 ≠ some Stop.stackOverflow) :
    (libproj_c_configure_default_context P m ctxXptr searchPath dbPath
        (c0 :: crest) networkEndpoint networkEnabled logLevel s).1.calls[2]? =
        some (Call.proj_context_set_ca_bundle_path (selectContext ctxXptr)
          (if c0 = NA_STRING then none else some (Rf_translateCharUTF8 c0))) ∧
      (libproj_c_configure_default_context P m ctxXptr searchPath dbPath
        (c0 :: crest) networkEndpoint networkEnabled logLevel s).1.calls[3]? =
        networkEnabled.head?.map
          (Call.proj_context_set_enable_network (selectContext ctxXptr)) := by
  obtain ⟨hs, hd⟩ := configure_fits P m ctxXptr searchPath dbPath (c0 :: crest)
    networkEndpoint networkEnabled logLevel s hstack
  rcases networkEnabled with _ | ⟨n0, nrest⟩
  · have hret : ¬ (P (expectedDatabasePathCall (selectContext ctxXptr) dbPath)
        (P (expectedSearchPathsCall (selectContext ctxXptr) searchPath) s).1).2 = 0 := by
      intro h0
      have := (configure_isDbError P m ctxXptr searchPath dbPath (c0 :: crest)
        networkEndpoint [] logLevel s hs hd).mpr h0
      rw [hdb] at this
      exact absurd this (by decide)
    rw [configure_eq P m _ _ _ _ _ _ _ _ hs hd, if_neg hret]
    simp [Step.andThen, caBundleStep, STRING_ELT, enableNetworkStep, LOGICAL, call,
      Run.calls]
  · obtain ⟨h3, h4, _⟩ := configure_net_log P m ctxXptr searchPath dbPath c0 crest
      networkEndpoint n0 nrest logLevel s hs hd hdb
    exact ⟨h3, h4⟩

/-- A call whose database path is rejected, with `caPath = NA`: the function
raises the database-path error at line 91 and never reaches the CA block, so no
CA bundle path is passed to PROJ. -/
theorem C6_ca_bundle_not_set_after_database_error :
    (libproj_c_configure_default_context rejectAll sampleStack none [some "/share"]
        [some "/proj.db"] [none] [some "https://cdn.example"] [0] [2] ()).2 =
      some (Stop.error (RError.cantSetDatabasePath "/proj.db")) ∧
    (libproj_c_configure_default_context rejectAll sampleStack none [some "/share"]
        [some "/proj.db"] [none] [some "https://cdn.example"] [0] [2] ()).1.calls =
      [Call.proj_context_set_search_paths PJ_DEFAULT_CTX 1 (some [some "/share"]),
       Call.proj_context_set_database_path PJ_DEFAULT_CTX (some "/proj.db") none none] ∧
    (libproj_c_configure_default_context rejectAll sampleStack none [some "/share"]
        [some "/proj.db"] [none] [some "https://cdn.example"] [0] [2] ()).1.calls[2]? =
      none := by
  decide

/-- Claim C10.  Provided `caPath`, `networkEndpoint`, `networkEnabled` and
`logLevel` each have at least one element, no run stops on an out-of-bounds
access, whatever the lengths of `searchPath` and `dbPath`: every read of
`searchPath[i]` and `dbPath[i + 1]` and every write to the two stack arrays is in
range. -/
theorem C10_no_out_of_bounds {σ : Type} (P : Native σ) (m : Stack)
    (ctxXptr : Option PJ_CONTEXT)
    (searchPath dbPath caPath networkEndpoint : List CHARSXP)
    (networkEnabled logLevel : List Int) (s : σ)
    (hca : caPath ≠ []) (hurl : networkEndpoint ≠ []) (hnet : networkEnabled ≠ [])
    (hlog : logLevel ≠ []) :
    (libproj_c_configure_default_context P m ctxXptr searchPath dbPath caPath
        networkEndpoint networkEnabled logLevel s).2 ≠ some Stop.outOfBounds := by
  obtain ⟨c0, crest, rfl⟩ := List.exists_cons_of_ne_nil hca
  obtain ⟨u0, urest, rfl⟩ := List.exists_cons_of_ne_nil hurl
  obtain ⟨n0, nrest, rfl⟩ := List.exists_cons_of_ne_nil hnet
  obtain ⟨l0, lrest, rfl⟩ := List.exists_cons_of_ne_nil hlog
  by_cases hs : searchPathsFit m searchPath
  · by_cases hd : databasePathsFit m dbPath
    · rw [configure_wf_eq P m _ _ _ _ _ _ _ _ _ _ _ _ hs hd]
      split
      · simp
      · split <;> simp
    · rw [configure_database_overflow P m _ _ _ _ _ _ _ _ hs hd]
      simp
  · rw [configure_search_overflow P m _ _ _ _ _ _ _ _ hs]
    simp

/-- Claim C9.  The function configures one context: the default context when
`ctxXptr` is nil, the address held by the external pointer otherwise.  Every
call it makes into PROJ is on that context; hence any part `obs` of the library
state that calls on that context leave alone (the configuration of another
context) is the same after the function as before. -/
theorem C9_single_context {σ α : Type} (P : Native σ) (m : Stack) (obs : σ → α)
    (ctxXptr : Option PJ_CONTEXT) (searchPath dbPath caPath networkEndpoint : List CHARSXP)
    (networkEnabled logLevel : List Int) (s : σ)
    (hP : ∀ (c : Call) (t : σ), Call.ctx c = selectContext ctxXptr → obs (P c t).1 = obs t) :
    selectContext none = PJ_DEFAULT_CTX ∧
    (∀ addr, selectContext (some addr) = addr) ∧
    (∀ c ∈ (libproj_c_configure_default_context P m ctxXptr searchPath dbPath caPath
        networkEndpoint networkEnabled logLevel s).1.calls,
        Call.ctx c = selectContext ctxXptr) ∧
    obs (libproj_c_configure_default_context P m ctxXptr searchPath dbPath caPath
        networkEndpoint networkEnabled logLevel s).1.native = obs s := by
  obtain ⟨cs, hcs, hr⟩ := configure_onlyCalls P m ctxXptr searchPath dbPath
    caPath networkEndpoint networkEnabled logLevel s
  refine ⟨rfl, fun _ => rfl, ?_, ?_⟩
  · intro c hc
    rw [hr, Run.calls, List.mem_map] at hc
    obtain ⟨e, he, rfl⟩ := hc
    rcases runCalls_log P _ _ e he with h | h
    · exact absurd h (by simp)
    · exact hcs _ h
  · rw [hr]
    exact runCalls_frame P obs (selectContext ctxXptr) hP cs ⟨s, []⟩ hcs

/-- Claim C1, as amended.  In the modelled library, a call that ends in an R
error keeps what the blocks before the failing call did and does nothing more:
after a database-path error the store of the context is the store before the
call with the search paths replaced by the given ones; after the network error
it is the store before the call with the search paths, the database path, the
auxiliary paths and the CA bundle path replaced by the requested ones.  The
network flag, the endpoint, the log level and the user-writable directory are
unchanged in both cases. -/
theorem C1_failure_keeps_earlier_blocks (env : Environment) (m : Stack)
    (ctxXptr : Option PJ_CONTEXT)
    (searchPath dbPath caPath networkEndpoint : List CHARSXP)
    (networkEnabled logLevel : List Int) (w : World) (e : RError)
    (h : (libproj_c_configure_default_context (projSpec env) m ctxXptr searchPath dbPath caPath
        networkEndpoint networkEnabled logLevel w).2 = some (Stop.error e)) :
    (e.isDatabasePath = true ∧
      (libproj_c_configure_default_context (projSpec env) m ctxXptr searchPath dbPath caPath
        networkEndpoint networkEnabled logLevel w).1.native (selectContext ctxXptr) =
        { w (selectContext ctxXptr) with
            searchPaths := searchPath.map Rf_translateCharUTF8 }) ∨
    (e = RError.cantEnableNetwork ∧ ∃ c0, caPath.head? = some c0 ∧
      (libproj_c_configure_default_context (projSpec env) m ctxXptr searchPath dbPath caPath
        networkEndpoint networkEnabled logLevel w).1.native (selectContext ctxXptr) =
        { w (selectContext ctxXptr) with
            searchPaths := searchPath.map Rf_translateCharUTF8,
            databasePath := dbPath.head?.map Rf_translateCharUTF8,
            auxDatabasePaths := dbPath.tail.map Rf_translateCharUTF8,
            caBundlePath := if c0 = NA_STRING then none
              else some (Rf_translateCharUTF8 c0) }) := by
  obtain ⟨hs, hd⟩ := configure_fits (projSpec env) m ctxXptr searchPath dbPath caPath
    networkEndpoint networkEnabled logLevel w (by rw [h]; simp)
  by_cases hdb : (projSpec env (expectedDatabasePathCall (selectContext ctxXptr) dbPath)
      (projSpec env (expectedSearchPathsCall (selectContext ctxXptr) searchPath) w).1).2 = 0
  · left
    obtain ⟨ho, hs⟩ := spec_database_failure env m ctxXptr searchPath dbPath caPath
      networkEndpoint networkEnabled logLevel w hs hd hdb
    rw [ho] at h
    have he : databasePathError dbPath = e := by injection h with h; injection h
    rw [← he]
    exact ⟨by simpa [isDbError] using databasePathError_isDatabasePath dbPath, hs⟩
  · right
    rcases caPath with _ | ⟨c0, crest⟩
    · rw [configure_eq (projSpec env) m _ _ _ _ _ _ _ _ hs hd, if_neg hdb] at h
      simp [Step.andThen, caBundleStep, STRING_ELT] at h
    rcases networkEnabled with _ | ⟨n0, nrest⟩
    · rw [configure_eq (projSpec env) m _ _ _ _ _ _ _ _ hs hd, if_neg hdb] at h
      simp [Step.andThen, caBundleStep, STRING_ELT, enableNetworkStep, LOGICAL] at h
    have hdb2 : ¬ (call (projSpec env) (expectedDatabasePathCall (selectContext ctxXptr) dbPath)
        (runCalls (projSpec env) [expectedSearchPathsCall (selectContext ctxXptr) searchPath]
          ⟨w, []⟩)).2 = 0 := hdb
    rw [configure_net_eq (projSpec env) m _ _ _ _ _ _ _ _ _ _ hs hd, if_neg hdb2] at h ⊢
    split at h
    · rename_i hnet
      have he : RError.cantEnableNetwork = e := by injection h with h; injection h
      refine ⟨he.symm, c0, rfl, ?_⟩
      rw [if_pos hnet]
      have hn0 : (projSpec env (Call.proj_context_set_enable_network (selectContext ctxXptr) n0)
          (projSpec env (Call.proj_context_set_ca_bundle_path (selectContext ctxXptr)
            (expectedCaBundlePath c0))
            (projSpec env (expectedDatabasePathCall (selectContext ctxXptr) dbPath)
              (projSpec env (expectedSearchPathsCall (selectContext ctxXptr) searchPath)
                w).1).1).1).2 = 0 := hnet.1
      simp only [runCalls, List.foldl_cons, List.foldl_nil, call]
      rw [projSpec_failed env _ _ hn0, projSpec_caBundle_at,
        projSpec_database_at env _ _ _ hdb, projSpec_search_at]
      rfl
    · rcases last_outcome (projSpec env) (selectContext ctxXptr) networkEndpoint logLevel
        (runCalls (projSpec env) [expectedSearchPathsCall (selectContext ctxXptr) searchPath,
          expectedDatabasePathCall (selectContext ctxXptr) dbPath,
          Call.proj_context_set_ca_bundle_path (selectContext ctxXptr)
            (expectedCaBundlePath c0),
          Call.proj_context_set_enable_network (selectContext ctxXptr) n0] ⟨w, []⟩)
        with ho | ho <;> rw [ho] at h <;> simp at h

/-- A failing call whose earlier block has taken effect: the database path
cannot be opened and the search paths have been replaced all the same, so the
store of the default context after the call differs from the store before. -/
theorem C1_search_paths_changed_on_failure :
    (libproj_c_configure_default_context (projSpec sampleEnv) sampleStack none [some "/new/share"]
        [some "/missing.db"] [none] [some "https://cdn.example"] [0] [2] sampleWorld).2 =
      some (Stop.error (RError.cantSetDatabasePath "/missing.db")) ∧
    ((libproj_c_configure_default_context (projSpec sampleEnv) sampleStack none [some "/new/share"]
        [some "/missing.db"] [none] [some "https://cdn.example"] [0] [2]
        sampleWorld).1.native PJ_DEFAULT_CTX).searchPaths = ["/new/share"] ∧
    (sampleWorld PJ_DEFAULT_CTX).searchPaths = ["/old/share"] ∧
    (libproj_c_configure_default_context (projSpec sampleEnv) sampleStack none [some "/new/share"]
        [some "/missing.db"] [none] [some "https://cdn.example"] [0] [2]
        sampleWorld).1.native PJ_DEFAULT_CTX ≠ sampleWorld PJ_DEFAULT_CTX := by
  decide

/-- The amended claim C1 at a call that fails to enable network access. -/
theorem C1_failure_keeps_earlier_blocks_witness :
    (libproj_c_configure_default_context (projSpec sampleEnv) sampleStack none [some "/new/share"]
        [some "/new/proj.db", some "/aux.db"] [some "/ca.pem"] [some "https://cdn.example"]
        [1] [2] sampleWorld).2 = some (Stop.error RError.cantEnableNetwork) ∧
    ((RError.cantEnableNetwork.isDatabasePath = true ∧
      (libproj_c_configure_default_context (projSpec sampleEnv) sampleStack none [some "/new/share"]
        [some "/new/proj.db", some "/aux.db"] [some "/ca.pem"] [some "https://cdn.example"]
        [1] [2] sampleWorld).1.native (selectContext none) =
        { sampleWorld (selectContext none) with
            searchPaths := [some "/new/share"].map Rf_translateCharUTF8 }) ∨
    (RError.cantEnableNetwork = RError.cantEnableNetwork ∧
      ∃ c0, [some "/ca.pem"].head? = some c0 ∧
      (libproj_c_configure_default_context (projSpec sampleEnv) sampleStack none [some "/new/share"]
        [some "/new/proj.db", some "/aux.db"] [some "/ca.pem"] [some "https://cdn.example"]
        [1] [2] sampleWorld).1.native (selectContext none) =
        { sampleWorld (selectContext none) with
            searchPaths := [some "/new/share"].map Rf_translateCharUTF8,
            databasePath := [some "/new/proj.db", some "/aux.db"].head?.map
              Rf_translateCharUTF8,
            auxDatabasePaths := [some "/new/proj.db", some "/aux.db"].tail.map
              Rf_translateCharUTF8,
            caBundlePath := if c0 = NA_STRING then none
              else some (Rf_translateCharUTF8 c0) })) :=
  ⟨by decide, C1_failure_keeps_earlier_blocks sampleEnv sampleStack none [some "/new/share"]
    [some "/new/proj.db", some "/aux.db"] [some "/ca.pem"] [some "https://cdn.example"]
    [1] [2] sampleWorld RError.cantEnableNetwork (by decide)⟩

/-! ## Log level and user-writable directory -/

/-- Two runs that differ in `logLevel` only: either they stop early, at the same
place with the same result, or both return and differ in the level argument of
their `proj_log_level` call only. -/
theorem configure_logLevel {σ : Type} (P : Native σ) (m : Stack)
    (ctxXptr : Option PJ_CONTEXT)
    (searchPath dbPath caPath networkEndpoint : List CHARSXP) (networkEnabled : List Int)
    (l1 : Int) (lr1 : List Int) (l2 : Int) (lr2 : List Int) (s : σ) :
    (libproj_c_configure_default_context P m ctxXptr searchPath dbPath caPath networkEndpoint
        networkEnabled (l1 :: lr1) s =
      libproj_c_configure_default_context P m ctxXptr searchPath dbPath caPath networkEndpoint
        networkEnabled (l2 :: lr2) s ∧
     (libproj_c_configure_default_context P m ctxXptr searchPath dbPath caPath networkEndpoint
        networkEnabled (l1 :: lr1) s).2 ≠ none) ∨
    ((libproj_c_configure_default_context P m ctxXptr searchPath dbPath caPath networkEndpoint
        networkEnabled (l1 :: lr1) s).2 = none ∧
     (libproj_c_configure_default_context P m ctxXptr searchPath dbPath caPath networkEndpoint
        networkEnabled (l2 :: lr2) s).2 = none ∧
     ∃ r : Run σ,
      (libproj_c_configure_default_context P m ctxXptr searchPath dbPath caPath networkEndpoint
        networkEnabled (l1 :: lr1) s).1 =
        runCalls P [Call.proj_log_level (selectContext ctxXptr) l1,
          Call.proj_context_get_user_writable_directory (selectContext ctxXptr) 0] r ∧
      (libproj_c_configure_default_context P m ctxXptr searchPath dbPath caPath networkEndpoint
        networkEnabled (l2 :: lr2) s).1 =
        runCalls P [Call.proj_log_level (selectContext ctxXptr) l2,
          Call.proj_context_get_user_writable_directory (selectContext ctxXptr) 0] r) := by
  by_cases hs : searchPathsFit m searchPath
  swap
  · left
    rw [configure_search_overflow P m _ _ _ _ _ _ _ _ hs,
      configure_search_overflow P m _ _ _ _ _ _ _ _ hs]
    exact ⟨rfl, by simp⟩
  by_cases hd : databasePathsFit m dbPath
  swap
  · left
    rw [configure_database_overflow P m _ _ _ _ _ _ _ _ hs hd,
      configure_database_overflow P m _ _ _ _ _ _ _ _ hs hd]
    exact ⟨rfl, by simp⟩
  rcases caPath with _ | ⟨c0, crest⟩
  · left
    rw [configure_eq P m _ _ _ _ _ _ _ _ hs hd, configure_eq P m _ _ _ _ _ _ _ _ hs hd]
    split
    · exact ⟨rfl, by simp⟩
    · simp [Step.andThen, caBundleStep, STRING_ELT]
  rcases networkEnabled with _ | ⟨n0, nrest⟩
  · left
    rw [configure_eq P m _ _ _ _ _ _ _ _ hs hd, configure_eq P m _ _ _ _ _ _ _ _ hs hd]
    split
    · exact ⟨rfl, by simp⟩
    · simp [Step.andThen, caBundleStep, STRING_ELT, enableNetworkStep, LOGICAL]
  rcases networkEndpoint with _ | ⟨u0, urest⟩
  · left
    rw [configure_net_eq P m _ _ _ _ _ _ _ _ _ _ hs hd,
      configure_net_eq P m _ _ _ _ _ _ _ _ _ _ hs hd]
    split
    · exact ⟨rfl, by simp⟩
    · split
      · exact ⟨rfl, by simp⟩
      · simp [Step.andThen, urlEndpointStep, STRING_ELT]
  rw [configure_wf_eq P m _ _ _ _ _ _ _ _ _ _ _ _ hs hd,
    configure_wf_eq P m _ _ _ _ _ _ _ _ _ _ _ _ hs hd]
  split
  · left; exact ⟨rfl, by simp⟩
  · split
    · left; exact ⟨rfl, by simp⟩
    · right
      exact ⟨rfl, rfl, _, rfl, rfl⟩

/-- In the modelled library, setting the log level and resolving the
user-writable directory leave every store the same up to its log level. -/
theorem spec_logLevel_only (env : Environment) (ctx x : PJ_CONTEXT) (l1 l2 : Int)
    (r : Run World) :
    ((runCalls (projSpec env) [Call.proj_log_level ctx l1,
        Call.proj_context_get_user_writable_directory ctx 0] r).native x).setLogLevel 0 =
    ((runCalls (projSpec env) [Call.proj_log_level ctx l2,
        Call.proj_context_get_user_writable_directory ctx 0] r).native x).setLogLevel 0 := by
  simp only [runCalls, List.foldl_cons, List.foldl_nil, call, projSpec]
  by_cases hx : x = ctx
  · subst hx
    simp only [Function.update_same, ConfigStore.resolveUserWritableDirectory,
      ConfigStore.setLogLevel]
    cases (r.native x).userWritableDirectory <;> rfl
  · simp only [Function.update_noteq hx]

theorem spec_logLevel_stored (env : Environment) (ctx : PJ_CONTEXT) (l : Int)
    (r : Run World) :
    ((runCalls (projSpec env) [Call.proj_log_level ctx l,
        Call.proj_context_get_user_writable_directory ctx 0] r).native ctx).logLevel = l := by
  simp only [runCalls, List.foldl_cons, List.foldl_nil, call, projSpec, Function.update_same,
    ConfigStore.resolveUserWritableDirectory, ConfigStore.setLogLevel]
  cases (r.native ctx).userWritableDirectory <;> rfl

/-- Claim C7.  Two calls on the same starting state whose arguments differ in
`logLevel` only (with a first element in both) have the same outcome, for every
behaviour of the library; in the modelled library the stores of every context
after the two calls agree on every field other than the log level (they are equal
once the log level is overwritten), and after a successful call the stored log
level is the requested one. -/
theorem C7_log_level_independent {σ : Type} (P : Native σ) (env : Environment) (m : Stack)
    (ctxXptr : Option PJ_CONTEXT) (searchPath dbPath caPath networkEndpoint : List CHARSXP)
    (networkEnabled : List Int) (l1 : Int) (lr1 : List Int) (l2 : Int) (lr2 : List Int)
    (s : σ) (w : World) (x : PJ_CONTEXT) :
    (libproj_c_configure_default_context P m ctxXptr searchPath dbPath caPath networkEndpoint
        networkEnabled (l1 :: lr1) s).2 =
      (libproj_c_configure_default_context P m ctxXptr searchPath dbPath caPath networkEndpoint
        networkEnabled (l2 :: lr2) s).2 ∧
    ((libproj_c_configure_default_context (projSpec env) m ctxXptr searchPath dbPath caPath
        networkEndpoint networkEnabled (l1 :: lr1) w).1.native x).setLogLevel 0 =
      ((libproj_c_configure_default_context (projSpec env) m ctxXptr searchPath dbPath caPath
        networkEndpoint networkEnabled (l2 :: lr2) w).1.native x).setLogLevel 0 ∧
    ((libproj_c_configure_default_context (projSpec env) m ctxXptr searchPath dbPath caPath
        networkEndpoint networkEnabled (l1 :: lr1) w).2 = none →
      ((libproj_c_configure_default_context (projSpec env) m ctxXptr searchPath dbPath caPath
        networkEndpoint networkEnabled (l1 :: lr1) w).1.native
          (selectContext ctxXptr)).logLevel = l1 ∧
      ((libproj_c_configure_default_context (projSpec env) m ctxXptr searchPath dbPath caPath
        networkEndpoint networkEnabled (l2 :: lr2) w).1.native
          (selectContext ctxXptr)).logLevel = l2) := by
  refine ⟨?_, ?_, ?_⟩
  · rcases configure_logLevel P m ctxXptr searchPath dbPath caPath networkEndpoint
      networkEnabled l1 lr1 l2 lr2 s with ⟨h, _⟩ | ⟨h1, h2, _⟩
    · rw [h]
    · rw [h1, h2]
  · rcases configure_logLevel (projSpec env) m ctxXptr searchPath dbPath caPath networkEndpoint
      networkEnabled l1 lr1 l2 lr2 w with ⟨h, _⟩ | ⟨_, _, r, h1, h2⟩
    · rw [h]
    · rw [h1, h2]
      exact spec_logLevel_only env _ x l1 l2 r
  · intro hret
    rcases configure_logLevel (projSpec env) m ctxXptr searchPath dbPath caPath networkEndpoint
      networkEnabled l1 lr1 l2 lr2 w with ⟨_, h⟩ | ⟨_, _, r, h1, h2⟩
    · exact absurd hret h
    · rw [h1, h2]
      exact ⟨spec_logLevel_stored env _ l1 r, spec_logLevel_stored env _ l2 r⟩

/-- A run that returns had well-formed arguments and made all seven calls. -/
theorem configure_returned {σ : Type} (P : Native σ) (m : Stack)
    (ctxXptr : Option PJ_CONTEXT)
    (searchPath dbPath caPath networkEndpoint : List CHARSXP)
    (networkEnabled logLevel : List Int) (s : σ)
    (h : (libproj_c_configure_default_context P m ctxXptr searchPath dbPath caPath
        networkEndpoint networkEnabled logLevel s).2 = none) :
    ∃ c0 u0 n0 l0, (libproj_c_configure_default_context P m ctxXptr searchPath dbPath caPath
        networkEndpoint networkEnabled logLevel s).1 =
      runCalls P [expectedSearchPathsCall (selectContext ctxXptr) searchPath,
        expectedDatabasePathCall (selectContext ctxXptr) dbPath,
        Call.proj_context_set_ca_bundle_path (selectContext ctxXptr) (expectedCaBundlePath c0),
        Call.proj_context_set_enable_network (selectContext ctxXptr) n0,
        Call.proj_context_set_url_endpoint (selectContext ctxXptr) (Rf_translateCharUTF8 u0),
        Call.proj_log_level (selectContext ctxXptr) l0,
        Call.proj_context_get_user_writable_directory (selectContext ctxXptr) 0]
        ⟨s, []⟩ := by
  obtain ⟨hs, hd⟩ := configure_fits P m ctxXptr searchPath dbPath caPath
    networkEndpoint networkEnabled logLevel s (by rw [h]; simp)
  rcases caPath with _ | ⟨c0, crest⟩
  · rw [configure_eq P m _ _ _ _ _ _ _ _ hs hd] at h
    split at h
    · simp at h
    · simp [Step.andThen, caBundleStep, STRING_ELT] at h
  rcases networkEnabled with _ | ⟨n0, nrest⟩
  · rw [configure_eq P m _ _ _ _ _ _ _ _ hs hd] at h
    split at h
    · simp at h
    · simp [Step.andThen, caBundleStep, STRING_ELT, enableNetworkStep, LOGICAL] at h
  rcases networkEndpoint with _ | ⟨u0, urest⟩
  · rw [configure_net_eq P m _ _ _ _ _ _ _ _ _ _ hs hd] at h
    split at h
    · simp at h
    · split at h
      · simp at h
      · simp [Step.andThen, urlEndpointStep, STRING_ELT] at h
  rcases logLevel with _ | ⟨l0, lrest⟩
  · rw [configure_net_eq P m _ _ _ _ _ _ _ _ _ _ hs hd] at h
    split at h
    · simp at h
    · split at h
      · simp at h
      · simp [Step.andThen, urlEndpointStep, STRING_ELT, logLevelStep, INTEGER] at h
  rw [configure_wf_eq P m _ _ _ _ _ _ _ _ _ _ _ _ hs hd] at h ⊢
  split at h
  · simp at h
  · split at h
    · simp at h
    · rename_i h1 h2
      rw [if_neg h1, if_neg h2]
      exact ⟨c0, u0, n0, l0, rfl⟩

/-- In the modelled library a user-writable directory, once resolved, stays. -/
theorem projSpec_directory_cached (env : Environment) (c : Call) (w : World)
    (x : PJ_CONTEXT) (d : String) (h : (w x).userWritableDirectory = some d) :
    ((projSpec env c w).1 x).userWritableDirectory = some d := by
  by_cases hx : x = Call.ctx c
  · subst hx
    cases c with
    | proj_context_set_search_paths ctx n a =>
      simpa [projSpec, Call.ctx, ConfigStore.setSearchPaths] using h
    | proj_context_set_database_path ctx p a o =>
      simp only [projSpec, commit, Call.ctx, ConfigStore.setDatabasePath] at h ⊢
      cases p <;> simp only [] <;> split_ifs <;> simp [Function.update_same, h]
    | proj_context_set_ca_bundle_path ctx p =>
      simpa [projSpec, Call.ctx, ConfigStore.setCABundlePath] using h
    | proj_context_set_enable_network ctx e =>
      simp only [projSpec, commit, Call.ctx, ConfigStore.setNetworkEnabled] at h ⊢
      split_ifs <;> simp [Function.update_same, h]
    | proj_context_set_url_endpoint ctx u =>
      simpa [projSpec, Call.ctx, ConfigStore.setNetworkEndpoint] using h
    | proj_log_level ctx l =>
      simpa [projSpec, Call.ctx, ConfigStore.setLogLevel] using h
    | proj_context_get_user_writable_directory ctx e =>
      simp only [Call.ctx] at h
      simp only [projSpec, Call.ctx, ConfigStore.resolveUserWritableDirectory,
        Function.update_same, h]
  · rw [projSpec_frame env c w x hx]
    exact h

theorem runCalls_directory_cached (env : Environment) (x : PJ_CONTEXT) (d : String)
    (cs : List Call) :
    ∀ (r : Run World), (r.native x).userWritableDirectory = some d →
      ((runCalls (projSpec env) cs r).native x).userWritableDirectory = some d := by
  induction cs with
  | nil => intro r h; exact h
  | cons c cs ih =>
    intro r h
    have h1 : runCalls (projSpec env) (c :: cs) r =
        runCalls (projSpec env) cs (call (projSpec env) c r).1 := rfl
    rw [h1]
    exact ih _ (projSpec_directory_cached env c r.native x d h)

/-- After the call that resolves it, the user-writable directory is cached. -/
theorem projSpec_directory_resolved (env : Environment) (ctx : PJ_CONTEXT) (create : Int)
    (w : World) :
    ∃ d, ((projSpec env (Call.proj_context_get_user_writable_directory ctx create) w).1
      ctx).userWritableDirectory = some d := by
  simp only [projSpec, Function.update_same, ConfigStore.resolveUserWritableDirectory]
  cases h : (w ctx).userWritableDirectory with
  | none => exact ⟨_, rfl⟩
  | some d => exact ⟨d, h⟩

/-- Claim C8.  In the modelled library, a call that returns has
`proj_context_get_user_writable_directory(ctx, 0)` (no creation) as its last
call, after which the user-writable directory of the context is resolved; a
second call on the same context, with any arguments and under any environment
(in particular a changed override), leaves that directory as it is, and
resolving it again yields the same value. -/
theorem C8_user_writable_directory_fixed (env1 env2 : Environment) (m m2 : Stack)
    (ctxXptr : Option PJ_CONTEXT)
    (searchPath dbPath caPath networkEndpoint : List CHARSXP)
    (networkEnabled logLevel : List Int)
    (searchPath2 dbPath2 caPath2 networkEndpoint2 : List CHARSXP)
    (networkEnabled2 logLevel2 : List Int) (w : World)
    (h : (libproj_c_configure_default_context (projSpec env1) m ctxXptr searchPath dbPath
        caPath networkEndpoint networkEnabled logLevel w).2 = none) :
    (libproj_c_configure_default_context (projSpec env1) m ctxXptr searchPath dbPath
        caPath networkEndpoint networkEnabled logLevel w).1.calls.getLast? =
      some (Call.proj_context_get_user_writable_directory (selectContext ctxXptr) 0) ∧
    ∃ d, ((libproj_c_configure_default_context (projSpec env1) m ctxXptr searchPath dbPath
        caPath networkEndpoint networkEnabled logLevel w).1.native
          (selectContext ctxXptr)).userWritableDirectory = some d ∧
      ((libproj_c_configure_default_context (projSpec env2) m2 ctxXptr searchPath2 dbPath2
        caPath2 networkEndpoint2 networkEnabled2 logLevel2
        (libproj_c_configure_default_context (projSpec env1) m ctxXptr searchPath dbPath
          caPath networkEndpoint networkEnabled logLevel w).1.native).1.native
          (selectContext ctxXptr)).userWritableDirectory = some d ∧
      (((libproj_c_configure_default_context (projSpec env2) m2 ctxXptr searchPath2 dbPath2
        caPath2 networkEndpoint2 networkEnabled2 logLevel2
        (libproj_c_configure_default_context (projSpec env1) m ctxXptr searchPath dbPath
          caPath networkEndpoint networkEnabled logLevel w).1.native).1.native
          (selectContext ctxXptr)).resolveUserWritableDirectory env2).2 = d := by
  obtain ⟨c0, u0, n0, l0, hr⟩ := configure_returned (projSpec env1) m ctxXptr searchPath dbPath
    caPath networkEndpoint networkEnabled logLevel w h
  have hd : ∃ d, ((libproj_c_configure_default_context (projSpec env1) m ctxXptr searchPath
      dbPath caPath networkEndpoint networkEnabled logLevel w).1.native
        (selectContext ctxXptr)).userWritableDirectory = some d := by
    rw [hr]
    simp only [runCalls, List.foldl_cons, List.foldl_nil, call]
    exact projSpec_directory_resolved env1 _ 0 _
  obtain ⟨d, hd⟩ := hd
  have hd2 : ((libproj_c_configure_default_context (projSpec env2) m2 ctxXptr searchPath2 dbPath2
        caPath2 networkEndpoint2 networkEnabled2 logLevel2
        (libproj_c_configure_default_context (projSpec env1) m ctxXptr searchPath dbPath
          caPath networkEndpoint networkEnabled logLevel w).1.native).1.native
          (selectContext ctxXptr)).userWritableDirectory = some d := by
    obtain ⟨cs, _, hr2⟩ := configure_onlyCalls (projSpec env2) m2 ctxXptr searchPath2 dbPath2
      caPath2 networkEndpoint2 networkEnabled2 logLevel2
      (libproj_c_configure_default_context (projSpec env1) m ctxXptr searchPath dbPath
          caPath networkEndpoint networkEnabled logLevel w).1.native
    rw [hr2]
    exact runCalls_directory_cached env2 _ d _ _ hd
  refine ⟨?_, d, hd, hd2, ?_⟩
  · rw [hr]
    simp [Run.calls, runCalls, call]
  · simp only [ConfigStore.resolveUserWritableDirectory, hd2]

/-! ## The claims at sample calls -/

/-- Claim C4 at a call that disables network access on a library whose
`proj_context_set_enable_network` returns `0`: no error is raised. -/
theorem C4_network_error_iff_witness :
    isDbError (libproj_c_configure_default_context noNetwork sampleStack none [some "/share"]
      [some "/proj.db"] [none] [some "https://cdn.example"] [0] [2] ()).2 = false ∧
    (libproj_c_configure_default_context noNetwork sampleStack none [some "/share"]
      [some "/proj.db"] [none] [some "https://cdn.example"] [0] [2] ()).2 ≠
      some Stop.stackOverflow ∧
    (0 : Int) = 0 ∧
    isNetworkError (libproj_c_configure_default_context noNetwork sampleStack none [some "/share"]
      [some "/proj.db"] [none] [some "https://cdn.example"] [0] [2] ()).2 = false :=
  ⟨by decide, by decide, rfl,
    (C4_network_error_iff noNetwork sampleStack none [some "/share"] [some "/proj.db"] none []
      [some "https://cdn.example"] 0 [] [2] () (by decide) (by decide)).2.2 rfl⟩

/-- Claim C6, as amended, at a call whose `caPath` is `NA`: the CA bundle path
passed is `NULL` and the run goes on. -/
theorem C6_ca_bundle_path_witness :
    isDbError (libproj_c_configure_default_context acceptAll sampleStack none [some "/share"]
      [some "/proj.db"] [none] [some "https://cdn.example"] [1] [2] ()).2 = false ∧
    (libproj_c_configure_default_context acceptAll sampleStack none [some "/share"]
      [some "/proj.db"] [none] [some "https://cdn.example"] [1] [2] ()).2 ≠
      some Stop.stackOverflow ∧
    (libproj_c_configure_default_context acceptAll sampleStack none [some "/share"]
      [some "/proj.db"] [none] [some "https://cdn.example"] [1] [2] ()).1.calls[2]? =
      some (Call.proj_context_set_ca_bundle_path PJ_DEFAULT_CTX none) :=
  ⟨by decide, by decide,
    (C6_ca_bundle_path acceptAll sampleStack none [some "/share"] [some "/proj.db"] none []
      [some "https://cdn.example"] [1] [2] () (by decide) (by decide)).1⟩

/-- Claim C10 at a call with three search paths and three database paths. -/
theorem C10_no_out_of_bounds_witness :
    ([some "/ca.pem"] : List CHARSXP) ≠ [] ∧
    ([some "https://cdn.example"] : List CHARSXP) ≠ [] ∧
    ([1] : List Int) ≠ [] ∧ ([2] : List Int) ≠ [] ∧
    (libproj_c_configure_default_context acceptAll sampleStack none [some "/a", some "/b", none]
      [some "/proj.db", some "/aux1.db", some "/aux2.db"] [some "/ca.pem"]
      [some "https://cdn.example"] [1] [2] ()).2 ≠ some Stop.outOfBounds :=
  ⟨by decide, by decide, by decide, by decide,
    C10_no_out_of_bounds acceptAll sampleStack none [some "/a", some "/b", none]
      [some "/proj.db", some "/aux1.db", some "/aux2.db"] [some "/ca.pem"]
      [some "https://cdn.example"] [1] [2] () (by decide) (by decide) (by decide)
      (by decide)⟩

/-- On a library that rejects every call, each branch on the length of `dbPath`
ends in its own database-path error. -/
theorem databasePathErrors_on_rejection :
    (libproj_c_configure_default_context rejectAll sampleStack none [] [] [none]
      [some "https://cdn.example"] [0] [2] ()).2 =
      some (Stop.error RError.cantSetDatabasePathNull) ∧
    (libproj_c_configure_default_context rejectAll sampleStack none [] [some "/proj.db"] [none]
      [some "https://cdn.example"] [0] [2] ()).2 =
      some (Stop.error (RError.cantSetDatabasePath "/proj.db")) ∧
    (libproj_c_configure_default_context rejectAll sampleStack none []
      [some "/proj.db", some "/aux.db"] [none] [some "https://cdn.example"] [0] [2] ()).2 =
      some (Stop.error (RError.cantSetDatabasePathAux "/proj.db")) := by
  decide

/-- An empty `caPath` does end the run on an out-of-bounds access: the proviso
of claim C10 is needed. -/
theorem outOfBounds_without_caPath :
    (libproj_c_configure_default_context acceptAll sampleStack none [some "/a"] [some "/proj.db"] []
      [some "https://cdn.example"] [1] [2] ()).2 = some Stop.outOfBounds := by
  decide

/-- Claim C9 at a call on the default context in the modelled library: the store
of the context at address `1` is left alone. -/
theorem C9_single_context_witness :
    (∀ (c : Call) (t : World), Call.ctx c = selectContext none →
      (projSpec sampleEnv c t).1 1 = t 1) ∧
    (libproj_c_configure_default_context (projSpec sampleEnv) sampleStack none [some "/new/share"]
      [some "/new/proj.db"] [none] [some "https://cdn.example"] [0] [2]
      sampleWorld).1.native 1 = sampleWorld 1 :=
  ⟨fun c t hc => projSpec_frame sampleEnv c t 1 (by rw [hc]; decide),
    (C9_single_context (projSpec sampleEnv) sampleStack (fun w => w 1) none [some "/new/share"]
      [some "/new/proj.db"] [none] [some "https://cdn.example"] [0] [2] sampleWorld
      (fun c t hc => projSpec_frame sampleEnv c t 1 (by rw [hc]; decide))).2.2.2⟩

/-- Claim C7 at two successful calls with log levels `2` and `3`. -/
theorem C7_log_level_independent_witness :
    (libproj_c_configure_default_context (projSpec sampleEnv) sampleStack none [some "/new/share"]
      [some "/new/proj.db"] [none] [some "https://cdn.example"] [0] [2] sampleWorld).2 = none ∧
    ((libproj_c_configure_default_context (projSpec sampleEnv) sampleStack none [some "/new/share"]
      [some "/new/proj.db"] [none] [some "https://cdn.example"] [0] [2]
      sampleWorld).1.native (selectContext none)).logLevel = 2 ∧
    ((libproj_c_configure_default_context (projSpec sampleEnv) sampleStack none [some "/new/share"]
      [some "/new/proj.db"] [none] [some "https://cdn.example"] [0] [3]
      sampleWorld).1.native (selectContext none)).logLevel = 3 :=
  ⟨by decide,
    (C7_log_level_independent acceptAll sampleEnv sampleStack none [some "/new/share"]
      [some "/new/proj.db"] [none] [some "https://cdn.example"] [0] 2 [] 3 [] ()
      sampleWorld 0).2.2 (by decide)⟩

/-- Claim C8 at two successful calls between which the override of the
user-writable directory changes from `/env/one` to `/env/two`: the directory
stays `/env/one`. -/
theorem C8_user_writable_directory_fixed_witness :
    (libproj_c_configure_default_context (projSpec sampleEnv) sampleStack none [some "/new/share"]
      [some "/new/proj.db"] [none] [some "https://cdn.example"] [0] [2] sampleWorld).2 = none ∧
    sampleEnvChanged.userWritableOverride = some "/env/two" ∧
    ((libproj_c_configure_default_context (projSpec sampleEnvChanged) sampleStack none
      [some "/other"] [some "/old/proj.db"] [none] [some "https://cdn.example"] [0] [1]
      (libproj_c_configure_default_context (projSpec sampleEnv) sampleStack none [some "/new/share"]
        [some "/new/proj.db"] [none] [some "https://cdn.example"] [0] [2]
        sampleWorld).1.native).1.native (selectContext none)).userWritableDirectory =
      some "/env/one" ∧
    (libproj_c_configure_default_context (projSpec sampleEnv) sampleStack none [some "/new/share"]
      [some "/new/proj.db"] [none] [some "https://cdn.example"] [0] [2]
      sampleWorld).1.calls.getLast? =
      some (Call.proj_context_get_user_writable_directory (selectContext none) 0) :=
  ⟨by decide, by decide, by decide,
    (C8_user_writable_directory_fixed sampleEnv sampleEnvChanged sampleStack sampleStack none
      [some "/new/share"] [some "/new/proj.db"] [none] [some "https://cdn.example"] [0] [2] [some "/other"]
      [some "/old/proj.db"] [none] [some "https://cdn.example"] [0] [1] sampleWorld
      (by decide)).1⟩

end Libproj
